import Mathlib

/-!
Verification development for the GenOps deployment-governance framework.

The Python sources are shallowly embedded below. Modelling conventions:
* Python `float` fields are modelled as `ℚ` (exact rational arithmetic;
  the source performs only +, -, *, /, min and comparisons on them).
* Python `int` fields are modelled as `ℤ`.
* Stochastic collaborators (`random`-based metric sampling, RAG retrieval,
  wall-clock timestamps and durations) are modelled as explicit oracle
  parameters, following the pluggable-collaborator contracts of the design.
* Stateful methods become explicit state-passing functions.
-/

namespace GenOps

/-- Substring test, modelling Python's `needle in haystack`. -/
def strContains (haystack needle : String) : Bool :=
  haystack.data.tails.any (fun t => needle.data.isPrefixOf t)

/-! ## models.py: enums and core data model -/

/-- Service criticality tiers (models.ServiceTier; `value` below gives the Python enum value). -/
inductive ServiceTier
  | critical
  | high
  | medium
  | low
deriving DecidableEq, Repr

/-- Python enum numeric value of a tier (`ServiceTier.CRITICAL = 1`, ...). -/
def ServiceTier.value : ServiceTier → ℤ
  | .critical => 1
  | .high => 2
  | .medium => 3
  | .low => 4

/-- Deployment pipeline status (models.DeploymentStatus). -/
inductive DeploymentStatus
  | pending
  | context_gathered
  | risk_assessed
  | canary_started
  | canary_stage_1
  | canary_stage_2
  | canary_stage_3
  | canary_stage_4
  | canary_complete
  | rolled_back
  | completed
  | failed
deriving DecidableEq, Repr

/-- Risk levels (models.RiskLevel). -/
inductive RiskLevel
  | low
  | medium
  | high
  | critical
deriving DecidableEq, Repr

/-- AI autonomy levels (models.AutonomyLevel). -/
inductive AutonomyLevel
  | shadow
  | assisted
  | governed
  | learning
deriving DecidableEq, Repr

/-- models.Service. Fields not read by any embedded code path
(`owner_team`, `avg_deployment_time_min`, `last_incident_days_ago`,
`deployment_frequency_daily`, `avg_latency_ms`) are omitted. -/
structure Service where
  id : String
  name : String
  tier : ServiceTier
  dependencies : List String
  error_budget_remaining : ℚ
  recent_failure_rate : ℚ
  availability_99d : ℚ
deriving Repr

/-- Service.health_score. -/
def Service.health_score (s : Service) : ℚ :=
  (s.error_budget_remaining + (1 - s.recent_failure_rate) + s.availability_99d) / 3

/-- models.DeploymentContext. -/
structure DeploymentContext where
  change_size_lines : ℤ
  files_changed : ℤ
  has_db_migration : Bool
  has_config_change : Bool
  is_hotfix : Bool
  time_of_day_hour : ℤ
  day_of_week : ℤ
  similar_past_failures : ℤ
  similar_past_successes : ℤ
  rag_confidence : ℚ
deriving Repr

/-- models.RiskAssessment. The `factors` dict is kept as an association list
in the insertion order of `calculate_risk_score`. -/
structure RiskAssessment where
  deployment_id : String
  risk_score : ℚ
  risk_level : RiskLevel
  confidence : ℚ
  factors : List (String × ℚ)
  recommendation : String
  requires_human_review : Bool
deriving Repr

/-- models.CanaryMetrics. -/
structure CanaryMetrics where
  stage : String
  traffic_percentage : ℚ
  duration_seconds : ℤ
  error_rate : ℚ
  latency_p50_ms : ℚ
  latency_p99_ms : ℚ
  success_rate : ℚ
  slo_violations : ℤ
deriving DecidableEq, Repr

/-- models.GovernancePolicy. -/
structure GovernancePolicy where
  name : String
  description : String
  condition : String
  action : String
  severity : String
deriving DecidableEq, Repr

/-- models.StudyResults (the aggregate counters). -/
structure StudyResults where
  total_deployments : ℤ
  successful_deployments : ℤ
  failed_deployments : ℤ
  rolled_back_deployments : ℤ
  canary_caught_issues : ℤ
  safety_violations : ℤ
  total_cycle_time_minutes : ℚ
deriving Repr

/-- StudyResults() with all-zero defaults. -/
def StudyResults.init : StudyResults :=
  ⟨0, 0, 0, 0, 0, 0, 0⟩

/-- StudyResults.median_cycle_time (the property as the source computes it). -/
def StudyResults.median_cycle_time (r : StudyResults) : ℚ :=
  if r.total_deployments = 0 then 0
  else r.total_cycle_time_minutes / r.total_deployments

/-! ## Number formatting helpers

Python f-string formatting (`:.2f`, `:.2%`, ...) appears only inside
human-readable recommendation / violation strings; no claim depends on the
digits produced. Rounding is to nearest with ties away from zero, a benign
approximation of Python's round-half-even. -/

/-- Format a rational with `d` decimal places. -/
def fmtRat (d : ℕ) (q : ℚ) : String :=
  let scaled : ℤ := ⌊q * (10 : ℚ) ^ d + 1 / 2⌋
  let sign := if scaled < 0 then "-" else ""
  let n : ℕ := scaled.natAbs
  let ip : ℕ := n / 10 ^ d
  let fp : ℕ := n % 10 ^ d
  if d = 0 then sign ++ toString ip
  else
    let fs := toString fp
    let pad := String.mk (List.replicate (d - fs.length) '0')
    sign ++ toString ip ++ "." ++ pad ++ fs

/-- Format as a percentage with `d` decimal places (Python `:%` style). -/
def fmtPercent (d : ℕ) (q : ℚ) : String :=
  fmtRat d (q * 100) ++ "%"

/-- Python `", ".join`. -/
def joinComma : List String → String
  | [] => ""
  | [x] => x
  | x :: xs => x ++ ", " ++ joinComma xs

/-- Python `"; ".join`. -/
def joinSemi : List String → String
  | [] => ""
  | [x] => x
  | x :: xs => x ++ "; " ++ joinSemi xs

/-! ## risk_scoring.py -/

/-- risk_scoring.RiskWeights (field defaults are `defaultRiskWeights`). -/
structure RiskWeights where
  service_tier : ℚ
  service_health : ℚ
  historical_failure_rate : ℚ
  blast_radius : ℚ
  change_complexity : ℚ
  timing_risk : ℚ
deriving Repr

/-- The dataclass defaults of RiskWeights. -/
def defaultRiskWeights : RiskWeights :=
  ⟨0.25, 0.15, 0.20, 0.15, 0.15, 0.10⟩

/-- RiskWeights.total. -/
def RiskWeights.total (w : RiskWeights) : ℚ :=
  w.service_tier + w.service_health + w.historical_failure_rate +
    w.blast_radius + w.change_complexity + w.timing_risk

/-- RiskScorer: weights plus configured autonomy level. -/
structure RiskScorer where
  weights : RiskWeights
  autonomy_level : AutonomyLevel
deriving Repr

/-- RiskScorer.RISK_THRESHOLDS. -/
def RISK_THRESHOLDS : AutonomyLevel → ℚ × ℚ
  | .shadow => (0, 1)
  | .assisted => (0, 0.3)
  | .governed => (0, 0.6)
  | .learning => (0, 0.8)

/-- RiskScorer decision thresholds. -/
def AUTO_APPROVE_THRESHOLD : ℚ := 0.3

/-- Enhanced monitoring threshold. -/
def ENHANCED_MONITORING_THRESHOLD : ℚ := 0.5

/-- Human review threshold. -/
def HUMAN_REVIEW_THRESHOLD : ℚ := 0.7

/-- Block threshold. -/
def BLOCK_THRESHOLD : ℚ := 0.9

/-- RiskScorer.__init__: normalizes the weights to sum to 1.0 whenever the
total is not already 1. (In Python a zero total raises ZeroDivisionError,
so a scorer with zero-total weights is never constructed; in ℚ division by
zero yields the junk value 0, and theorems hypothesize `total ≠ 0`.) -/
def mkRiskScorer (weights : RiskWeights) (autonomy_level : AutonomyLevel) : RiskScorer :=
  let total := weights.total
  if total ≠ 1 then
    ⟨⟨weights.service_tier / total, weights.service_health / total,
      weights.historical_failure_rate / total, weights.blast_radius / total,
      weights.change_complexity / total, weights.timing_risk / total⟩, autonomy_level⟩
  else
    ⟨weights, autonomy_level⟩

/-- RiskScorer._calculate_tier_risk. -/
def calculate_tier_risk (service : Service) : ℚ :=
  match service.tier with
  | .critical => 0.9
  | .high => 0.7
  | .medium => 0.4
  | .low => 0.2

/-- RiskScorer._calculate_health_risk. -/
def calculate_health_risk (service : Service) : ℚ :=
  1 - service.health_score

/-- RiskScorer._calculate_historical_risk. -/
def calculate_historical_risk (context : DeploymentContext) : ℚ :=
  let total := context.similar_past_successes + context.similar_past_failures
  if total = 0 then 0.5
  else min ((context.similar_past_failures : ℚ) / (total : ℚ) * 1.5) 1

/-- RiskScorer._calculate_blast_radius. -/
def calculate_blast_radius (service : Service) (context : DeploymentContext) : ℚ :=
  let num_deps := service.dependencies.length
  let risk : ℚ := if num_deps > 10 then 0.4 else if num_deps > 5 then 0.2
    else if num_deps > 0 then 0.1 else 0
  let risk := if context.has_db_migration then risk + 0.3 else risk
  let risk := if context.has_config_change then risk + 0.2 else risk
  min risk 1

/-- RiskScorer._calculate_complexity_risk. -/
def calculate_complexity_risk (context : DeploymentContext) : ℚ :=
  let risk : ℚ := if context.change_size_lines > 1000 then 0.4
    else if context.change_size_lines > 500 then 0.25
    else if context.change_size_lines > 200 then 0.1 else 0
  let risk := if context.files_changed > 50 then risk + 0.3
    else if context.files_changed > 20 then risk + 0.15 else risk
  let risk := if context.is_hotfix then risk + 0.2 else risk
  min risk 1

/-- RiskScorer._calculate_timing_risk. -/
def calculate_timing_risk (context : DeploymentContext) : ℚ :=
  let risk : ℚ := if context.time_of_day_hour ≥ 22 ∨ context.time_of_day_hour ≤ 6
    then 0.4 else 0
  let risk := if context.day_of_week = 4 then risk + 0.3
    else if context.day_of_week ≥ 5 then risk + 0.5 else risk
  min risk 1

/-- The risk-level threshold mapping inlined in `calculate_risk_score`. -/
def riskLevelFor (risk_score : ℚ) : RiskLevel :=
  if risk_score ≥ BLOCK_THRESHOLD then .critical
  else if risk_score ≥ HUMAN_REVIEW_THRESHOLD then .high
  else if risk_score ≥ ENHANCED_MONITORING_THRESHOLD then .medium
  else .low

/-- Descending insertion (helper for the stable sort in
`_generate_recommendation`). -/
def insertDesc (x : String × ℚ) : List (String × ℚ) → List (String × ℚ)
  | [] => [x]
  | y :: ys => if x.2 ≥ y.2 then x :: y :: ys else y :: insertDesc x ys

/-- Sort factor pairs by descending score (Python `sorted(key=lambda x: -x[1])`). -/
def sortFactorsDesc (xs : List (String × ℚ)) : List (String × ℚ) :=
  xs.foldr insertDesc []

/-- RiskScorer._generate_recommendation. -/
def generate_recommendation (risk_score : ℚ) (risk_level : RiskLevel)
    (factors : List (String × ℚ)) : String :=
  let sorted_factors := sortFactorsDesc factors
  let top_risks := ((sorted_factors.take 2).filter (fun p => p.2 > 0.5)).map (·.1)
  let tops := if top_risks.isEmpty then "multiple" else joinComma top_risks
  let topsB := if top_risks.isEmpty then "cumulative" else joinComma top_risks
  match risk_level with
  | .critical =>
      "BLOCK: Risk score " ++ fmtRat 2 risk_score ++ " exceeds threshold. Top factors: "
        ++ tops ++ ". Manual approval required."
  | .high =>
      "ESCALATE: Risk score " ++ fmtRat 2 risk_score
        ++ ". Requires human review before proceeding. Top factors: " ++ topsB ++ "."
  | .medium =>
      "PROCEED WITH CAUTION: Risk score " ++ fmtRat 2 risk_score
        ++ ". Enhanced monitoring recommended during canary."
  | .low =>
      "AUTO-APPROVE: Risk score " ++ fmtRat 2 risk_score
        ++ ". Proceeding with standard canary rollout."

/-- RiskScorer.calculate_risk_score. -/
def calculate_risk_score (rs : RiskScorer) (service : Service)
    (context : DeploymentContext) (deployment_id : String) : RiskAssessment :=
  let f_tier := calculate_tier_risk service
  let f_health := calculate_health_risk service
  let f_hist := calculate_historical_risk context
  let f_blast := calculate_blast_radius service context
  let f_cplx := calculate_complexity_risk context
  let f_timing := calculate_timing_risk context
  let factors := [("service_tier", f_tier), ("service_health", f_health),
    ("historical_failure", f_hist), ("blast_radius", f_blast),
    ("change_complexity", f_cplx), ("timing", f_timing)]
  let risk_score :=
    f_tier * rs.weights.service_tier +
    f_health * rs.weights.service_health +
    f_hist * rs.weights.historical_failure_rate +
    f_blast * rs.weights.blast_radius +
    f_cplx * rs.weights.change_complexity +
    f_timing * rs.weights.timing_risk
  let risk_level := riskLevelFor risk_score
  let requires_human := risk_score ≥ HUMAN_REVIEW_THRESHOLD
  let max_risk := (RISK_THRESHOLDS rs.autonomy_level).2
  let requires_human := requires_human ∨ risk_score > max_risk
  let confidence := context.rag_confidence
  let recommendation := generate_recommendation risk_score risk_level factors
  { deployment_id := deployment_id
    risk_score := risk_score
    risk_level := risk_level
    confidence := confidence
    factors := factors
    recommendation := recommendation
    requires_human_review := decide requires_human }

/-- RiskScorer.check_error_budget. -/
def check_error_budget (service : Service) : Bool × String :=
  if service.error_budget_remaining ≤ 0 then
    (false, "ERROR_BUDGET_EXHAUSTED: Service " ++ service.name
      ++ " has no remaining error budget")
  else if service.error_budget_remaining < 0.1 then
    (true, "WARNING: Low error budget (" ++ fmtPercent 1 service.error_budget_remaining
      ++ "). Consider delaying non-critical changes.")
  else
    (true, "OK: Sufficient error budget available")

/-! ## canary_rollout.py -/

/-- canary_rollout.CanaryOutcome. -/
inductive CanaryOutcome
  | success
  | rollback
  | timeout
  | manual_abort
deriving DecidableEq, Repr

/-- canary_rollout.SLOConfig. -/
structure SLOConfig where
  error_rate_threshold : ℚ
  latency_p50_threshold_ms : ℚ
  latency_p99_threshold_ms : ℚ
  success_rate_threshold : ℚ
deriving Repr

/-- The dataclass defaults of SLOConfig. -/
def defaultSLOConfig : SLOConfig :=
  ⟨0.02, 150, 600, 0.98⟩

/-- canary_rollout.CanaryStage. -/
structure CanaryStage where
  name : String
  traffic_percentage : ℚ
  min_duration_seconds : ℤ
  max_duration_seconds : ℤ
  required_samples : ℤ
deriving DecidableEq, Repr

/-- CanaryRollout.DEFAULT_STAGES. -/
def DEFAULT_STAGES : List CanaryStage :=
  [⟨"1%", 0.01, 300, 600, 50⟩,
   ⟨"5%", 0.05, 300, 600, 100⟩,
   ⟨"25%", 0.25, 300, 900, 500⟩,
   ⟨"50%", 0.50, 300, 900, 1000⟩,
   ⟨"100%", 1.00, 0, 0, 0⟩]

/-- CanaryRollout.HIGH_RISK_STAGES. -/
def HIGH_RISK_STAGES : List CanaryStage :=
  [⟨"1%", 0.01, 600, 900, 100⟩,
   ⟨"2%", 0.02, 300, 600, 100⟩,
   ⟨"5%", 0.05, 300, 600, 200⟩,
   ⟨"10%", 0.10, 300, 600, 500⟩,
   ⟨"25%", 0.25, 300, 900, 1000⟩,
   ⟨"50%", 0.50, 300, 900, 2000⟩,
   ⟨"100%", 1.00, 0, 0, 0⟩]

/-- CanaryRollout.get_stages. -/
def get_stages (risk_level : RiskLevel) : List CanaryStage :=
  if risk_level = .high ∨ risk_level = .critical then HIGH_RISK_STAGES
  else DEFAULT_STAGES

/-- The mutable per-rollout state of a CanaryRollout instance
(`current_stage_index`, `rollback_triggered`, `rollback_reason`). -/
structure RolloutState where
  current_stage_index : ℤ
  rollback_triggered : Bool
  rollback_reason : Option String
deriving DecidableEq, Repr

/-- CanaryRollout.__init__ / freshly constructed rollout state. -/
def RolloutState.init : RolloutState :=
  ⟨0, false, none⟩

/-- CanaryRollout.reset. -/
def RolloutState.reset (_ : RolloutState) : RolloutState :=
  ⟨0, false, none⟩

/-- CanaryRollout.check_slo_compliance: returns `(compliant, violations)`. -/
def check_slo_compliance (cfg : SLOConfig) (metrics : CanaryMetrics) :
    Bool × List String :=
  let violations : List String :=
    (if metrics.error_rate > cfg.error_rate_threshold then
      ["Error rate " ++ fmtPercent 2 metrics.error_rate ++ " exceeds threshold "
        ++ fmtPercent 2 cfg.error_rate_threshold] else []) ++
    (if metrics.latency_p50_ms > cfg.latency_p50_threshold_ms then
      ["P50 latency " ++ fmtRat 1 metrics.latency_p50_ms ++ "ms exceeds threshold "
        ++ fmtRat 1 cfg.latency_p50_threshold_ms ++ "ms"] else []) ++
    (if metrics.latency_p99_ms > cfg.latency_p99_threshold_ms then
      ["P99 latency " ++ fmtRat 1 metrics.latency_p99_ms ++ "ms exceeds threshold "
        ++ fmtRat 1 cfg.latency_p99_threshold_ms ++ "ms"] else []) ++
    (if metrics.success_rate < cfg.success_rate_threshold then
      ["Success rate " ++ fmtPercent 2 metrics.success_rate ++ " below threshold "
        ++ fmtPercent 2 cfg.success_rate_threshold] else [])
  (violations.length = 0, violations)

/-- A metrics-sampling oracle: models the stochastic
`simulate_stage_metrics(stage, service, risk_assessment, introduce_failure)`.
The first argument is the loop iteration (successive random draws differ),
the Bool is `introduce_failure`. -/
def MetricsOracle : Type :=
  ℕ → CanaryStage → Bool → CanaryMetrics

/-- CanaryRollout.execute_stage, with the sampled metrics passed in explicitly.
Returns `(outcome, metrics, failure_reason)`. -/
def execute_stage (cfg : SLOConfig) (stage : CanaryStage) (metrics : CanaryMetrics) :
    CanaryOutcome × CanaryMetrics × Option String :=
  let (compliant, violations) := check_slo_compliance cfg metrics
  if !compliant then
    (.rollback, metrics,
      some ("SLO violations at " ++ stage.name ++ ": " ++ joinSemi violations))
  else
    (.success, metrics, none)

/-- The `for i, stage in enumerate(stages)` loop body of
CanaryRollout.execute_rollout, as a recursion over the remaining stages.
Returns the final rollout state, the accumulated metrics history, and the
local `final_status` variable (initialized to COMPLETED, set to ROLLED_BACK
when a stage outcome is ROLLBACK). -/
def rolloutLoop (cfg : SLOConfig) (sample : MetricsOracle) (failure_stage : Option ℕ) :
    List CanaryStage → ℕ → RolloutState → List CanaryMetrics →
    RolloutState × List CanaryMetrics × DeploymentStatus
  | [], _, st, hist => (st, hist, .completed)
  | stage :: rest, i, st, hist =>
    let force_failure := failure_stage = some i
    let m := sample i stage force_failure
    let (outcome, metrics, failure_reason) := execute_stage cfg stage m
    let hist' := hist ++ [metrics]
    if outcome = .rollback then
      ({ st with rollback_triggered := true, rollback_reason := failure_reason },
        hist', .rolled_back)
    else if stage.traffic_percentage ≥ 1 then
      (st, hist', .completed)
    else
      rolloutLoop cfg sample failure_stage rest (i + 1) st hist'

/-- The result dictionary of CanaryRollout.execute_rollout. -/
structure RolloutResult where
  status : DeploymentStatus
  stages_completed : ℕ
  total_stages : ℕ
  metrics_history : List CanaryMetrics
  rollback_triggered : Bool
  rollback_reason : Option String
  rollback_stage : Option String
  final_traffic_percentage : ℚ
deriving Repr

/-- CanaryRollout.execute_rollout. The mutable instance state is threaded
explicitly; the per-stage metrics come from the `sample` oracle. -/
def execute_rollout (cfg : SLOConfig) (st : RolloutState) (risk_assessment : RiskAssessment)
    (sample : MetricsOracle) (failure_stage : Option ℕ) : RolloutState × RolloutResult :=
  let stages := get_stages risk_assessment.risk_level
  let (st', hist, final_status) := rolloutLoop cfg sample failure_stage stages 0 st []
  (st',
   { status := final_status
     stages_completed := hist.length
     total_stages := stages.length
     metrics_history := hist
     rollback_triggered := st'.rollback_triggered
     rollback_reason := st'.rollback_reason
     rollback_stage := if st'.rollback_triggered then hist.getLast?.map (·.stage) else none
     final_traffic_percentage :=
       match hist.getLast? with
       | some m => m.traffic_percentage
       | none => 0 })

/-- canary_rollout.KillSwitch (thresholds plus the consecutive-failure counter). -/
structure KillSwitch where
  error_rate_kill_threshold : ℚ
  latency_spike_multiplier : ℚ
  consecutive_failures : ℤ
  failure_count : ℤ
deriving Repr

/-- KillSwitch.__init__ with the default thresholds. -/
def KillSwitch.init : KillSwitch :=
  ⟨0.05, 5, 3, 0⟩

/-- KillSwitch.check: returns the updated switch state and `(should_kill, reason)`. -/
def KillSwitch.check (ks : KillSwitch) (metrics : CanaryMetrics)
    (baseline_latency_p99 : ℚ) : KillSwitch × Bool × Option String :=
  if metrics.error_rate ≥ ks.error_rate_kill_threshold then
    (ks, true, some ("KILL: Critical error rate " ++ fmtPercent 2 metrics.error_rate
      ++ " >= " ++ fmtPercent 2 ks.error_rate_kill_threshold))
  else if metrics.latency_p99_ms ≥ baseline_latency_p99 * ks.latency_spike_multiplier then
    (ks, true, some ("KILL: Latency spike " ++ fmtRat 0 metrics.latency_p99_ms
      ++ "ms >= " ++ fmtRat 0 (baseline_latency_p99 * ks.latency_spike_multiplier) ++ "ms"))
  else if metrics.slo_violations > 0 then
    let ks' := { ks with failure_count := ks.failure_count + 1 }
    if ks'.failure_count ≥ ks'.consecutive_failures then
      (ks', true, some ("KILL: " ++ toString ks'.consecutive_failures
        ++ " consecutive SLO violations"))
    else
      (ks', false, none)
  else
    ({ ks with failure_count := 0 }, false, none)

/-! ## A model of the Python values stored in audit `details` dicts, with
`json.dumps(·, sort_keys=True)` serialization. Numbers carry their rational
value; integral values render without a decimal point (Python's float repr
is abstracted, no theorem depends on the digits). -/

/-- JSON-serializable Python value. -/
inductive Json
  | null
  | bool (b : Bool)
  | num (q : ℚ)
  | str (s : String)
  | arr (xs : List Json)
  | obj (kvs : List (String × Json))
deriving Repr

/-- Minimal JSON string escaping (quote and backslash; the embedded strings
contain no control characters). -/
def jsonEscape (s : String) : String :=
  String.mk (s.data.foldr
    (fun c acc =>
      if c = '"' then '\\' :: '"' :: acc
      else if c = '\\' then '\\' :: '\\' :: acc
      else c :: acc) [])

/-- Render a rational: integers without a decimal point, otherwise num/den. -/
def jsonNum (q : ℚ) : String :=
  if q.den = 1 then toString q.num
  else toString q.num ++ "/" ++ toString q.den

/-- Ascending insertion by key (helper for `sort_keys=True`). -/
def insertByKey (x : String × Json) : List (String × Json) → List (String × Json)
  | [] => [x]
  | y :: ys => if x.1 ≤ y.1 then x :: y :: ys else y :: insertByKey x ys

/-- Sort an object's entries by key (Python `sort_keys=True`). -/
def sortByKey (kvs : List (String × Json)) : List (String × Json) :=
  kvs.foldr insertByKey []

mutual

/-- json.dumps with default separators. Key sorting (`sort_keys=True`) is
realized at construction: every object below is built through `jobj`, which
stores its entries already sorted by key, so serializing in stored order
coincides with Python's sorted-keys dump. -/
def Json.dumps : Json → String
  | .null => "null"
  | .bool b => if b then "true" else "false"
  | .num q => jsonNum q
  | .str s => "\"" ++ jsonEscape s ++ "\""
  | .arr xs => "\x5b" ++ joinComma (dumpsList xs) ++ "\x5d"
  | .obj kvs => "\x7b" ++ joinComma (dumpsObj kvs) ++ "\x7d"

/-- Serialize array elements. -/
def dumpsList : List Json → List String
  | [] => []
  | x :: xs => Json.dumps x :: dumpsList xs

/-- Serialize (already sorted) object entries. -/
def dumpsObj : List (String × Json) → List String
  | [] => []
  | (k, v) :: xs => ("\"" ++ jsonEscape k ++ "\": " ++ Json.dumps v) :: dumpsObj xs

end

/-- Build a JSON object with its entries sorted by key, so that `Json.dumps`
matches `json.dumps(·, sort_keys=True)`. -/
def jobj (kvs : List (String × Json)) : Json :=
  .obj (sortByKey kvs)

/-! ## SHA-256 (hashlib.sha256), over byte lists, word arithmetic mod 2^32. -/

/-- Right-rotate a 32-bit word. -/
def rotr32 (n x : ℕ) : ℕ :=
  ((x >>> n) ||| (x <<< (32 - n))) % 4294967296

/-- SHA-256 round constants. -/
def sha256K : List ℕ :=
  [1116352408, 1899447441, 3049323471, 3921009573, 961987163,
   1508970993, 2453635748, 2870763221, 3624381080, 310598401,
   607225278, 1426881987, 1925078388, 2162078206, 2614888103,
   3248222580, 3835390401, 4022224774, 264347078, 604807628,
   770255983, 1249150122, 1555081692, 1996064986, 2554220882,
   2821834349, 2952996808, 3210313671, 3336571891, 3584528711,
   113926993, 338241895, 666307205, 773529912, 1294757372,
   1396182291, 1695183700, 1986661051, 2177026350, 2456956037,
   2730485921, 2820302411, 3259730800, 3345764771, 3516065817,
   3600352804, 4094571909, 275423344, 430227734, 506948616,
   659060556, 883997877, 958139571, 1322822218, 1537002063,
   1747873779, 1955562222, 2024104815, 2227730452, 2361852424,
   2428436474, 2756734187, 3204031479, 3329325298]

/-- SHA-256 initial hash words. -/
def sha256H0 : List ℕ :=
  [1779033703, 3144134277, 1013904242, 2773480762,
   1359893119, 2600822924, 528734635, 1541459225]

/-- Pad a message to a multiple of 64 bytes (0x80, zeros, 64-bit bit length). -/
def sha256Pad (msg : List ℕ) : List ℕ :=
  let len := msg.length
  let bitLen := len * 8
  let padZeros := (56 + 64 - (len + 1) % 64) % 64
  msg ++ [0x80] ++ List.replicate padZeros 0 ++
    (List.range 8).map (fun i => (bitLen >>> ((7 - i) * 8)) % 256)

/-- Big-endian bytes to 32-bit words. -/
def bytesToWords : List ℕ → List ℕ
  | a :: b :: c :: d :: rest =>
    (a * 16777216 + b * 65536 + c * 256 + d) :: bytesToWords rest
  | _ => []

/-- Split a word list into blocks of 16 words (fuel-based recursion). -/
def wordsToBlocks : ℕ → List ℕ → List (List ℕ)
  | 0, _ => []
  | _ + 1, [] => []
  | fuel + 1, ws => ws.take 16 :: wordsToBlocks fuel (ws.drop 16)

/-- Expand a 16-word block into the 64-entry message schedule. -/
def sha256Schedule (block : List ℕ) : List ℕ :=
  (List.range 48).foldl
    (fun w _ =>
      let n := w.length
      let w2 := w.getD (n - 2) 0
      let w7 := w.getD (n - 7) 0
      let w15 := w.getD (n - 15) 0
      let w16 := w.getD (n - 16) 0
      let s0 := rotr32 7 w15 ^^^ rotr32 18 w15 ^^^ (w15 >>> 3)
      let s1 := rotr32 17 w2 ^^^ rotr32 19 w2 ^^^ (w2 >>> 10)
      w ++ [(w16 + s0 + w7 + s1) % 4294967296])
    block

/-- One SHA-256 compression round over the running 8-word state. -/
def sha256Compress (hs : List ℕ) (block : List ℕ) : List ℕ :=
  let w := sha256Schedule block
  let step := fun (st : List ℕ) (i : ℕ) =>
    let a := st.getD 0 0
    let b := st.getD 1 0
    let c := st.getD 2 0
    let d := st.getD 3 0
    let e := st.getD 4 0
    let f := st.getD 5 0
    let g := st.getD 6 0
    let h := st.getD 7 0
    let S1 := rotr32 6 e ^^^ rotr32 11 e ^^^ rotr32 25 e
    let ch := (e &&& f) ^^^ ((e ^^^ 4294967295) &&& g)
    let t1 := (h + S1 + ch + sha256K.getD i 0 + w.getD i 0) % 4294967296
    let S0 := rotr32 2 a ^^^ rotr32 13 a ^^^ rotr32 22 a
    let mj := (a &&& b) ^^^ (a &&& c) ^^^ (b &&& c)
    let t2 := (S0 + mj) % 4294967296
    [(t1 + t2) % 4294967296, a, b, c, (d + t1) % 4294967296, e, f, g]
  let fin := (List.range 64).foldl step hs
  (List.range 8).map (fun i => (hs.getD i 0 + fin.getD i 0) % 4294967296)

/-- Hex character for a nibble. -/
def hexChar (n : ℕ) : Char :=
  if n < 10 then Char.ofNat (48 + n) else Char.ofNat (87 + n)

/-- Lower-case hex rendering of a 32-bit word. -/
def wordToHex (w : ℕ) : String :=
  String.mk ((List.range 8).map (fun i => hexChar ((w >>> ((7 - i) * 4)) % 16)))

/-- UTF-8 encoding of one character (Python `str.encode()`). -/
def utf8Bytes (c : Char) : List ℕ :=
  let n := c.toNat
  if n < 128 then [n]
  else if n < 2048 then [192 + n / 64, 128 + n % 64]
  else if n < 65536 then [224 + n / 4096, 128 + (n / 64) % 64, 128 + n % 64]
  else [240 + n / 262144, 128 + (n / 4096) % 64, 128 + (n / 64) % 64, 128 + n % 64]

/-- UTF-8 bytes of a string. -/
def strBytes (s : String) : List ℕ :=
  s.data.foldr (fun c acc => utf8Bytes c ++ acc) []

/-- hashlib.sha256(content.encode()).hexdigest(). -/
def sha256Hex (s : String) : String :=
  let words := bytesToWords (sha256Pad (strBytes s))
  let blocks := wordsToBlocks words.length words
  let hs := blocks.foldl sha256Compress sha256H0
  String.join (hs.map wordToHex)

/-! ## governance.py -/

/-- governance.AuditEntry. -/
structure AuditEntry where
  timestamp : String
  deployment_id : String
  event_type : String
  actor : String
  action : String
  details : Json
  risk_score : Option ℚ
  confidence : Option ℚ
  policies_evaluated : List String
  policies_violated : List String
  hash : String
deriving Repr

/-- AuditEntry._calculate_hash: the hashed content is the concatenation of
timestamp, deployment id, event type, action and the sorted-keys JSON dump
of the details; the hash is the first 16 hex characters of its SHA-256. -/
def hashContent (timestamp deployment_id event_type action : String)
    (details : Json) : String :=
  timestamp ++ deployment_id ++ event_type ++ action ++ details.dumps

/-- The hash value over the given fields. -/
def calculateHash (timestamp deployment_id event_type action : String)
    (details : Json) : String :=
  (sha256Hex (hashContent timestamp deployment_id event_type action details)).take 16

/-- Recompute an entry's hash from its stored fields
(`entry._calculate_hash()` on an existing entry). -/
def AuditEntry.recomputeHash (e : AuditEntry) : String :=
  calculateHash e.timestamp e.deployment_id e.event_type e.action e.details

/-- AuditEntry construction as done by `__post_init__` with the default
empty hash: the stored hash is computed from the other fields. -/
def mkAuditEntry (timestamp deployment_id event_type actor action : String)
    (details : Json) (risk_score confidence : Option ℚ)
    (policies_evaluated policies_violated : List String) : AuditEntry :=
  { timestamp := timestamp
    deployment_id := deployment_id
    event_type := event_type
    actor := actor
    action := action
    details := details
    risk_score := risk_score
    confidence := confidence
    policies_evaluated := policies_evaluated
    policies_violated := policies_violated
    hash := calculateHash timestamp deployment_id event_type action details }

/-- Python enum string value of a risk level. -/
def RiskLevel.pyValue : RiskLevel → String
  | .low => "low"
  | .medium => "medium"
  | .high => "high"
  | .critical => "critical"

/-- models.Deployment. The datetime fields (`started_at`, `completed_at`)
are not modelled; the wall-clock duration enters only through the
`duration_minutes` oracle parameter of the pipeline functions. The
deployment-local `audit_trail` (written by `Deployment.add_audit_event`) is
abstracted to the appended event types with the status at logging time; no
claim reads its entry dictionaries. -/
structure Deployment where
  id : String
  service_id : String
  version : String
  status : DeploymentStatus
  context : Option DeploymentContext
  risk_assessment : Option RiskAssessment
  canary_metrics : List CanaryMetrics
  rollback_reason : Option String
  audit_trail : List (String × DeploymentStatus)
deriving Repr

/-- GovernanceEngine state: the policy set and the append-only audit log.
The model-approval registry and `verify_model_approval` are omitted (no
claim concerns them); `autonomy_level` is never read by the engine. -/
structure GovernanceEngine where
  policies : List GovernancePolicy
  audit_log : List AuditEntry
deriving Repr

/-- GovernanceEngine.DEFAULT_POLICIES. -/
def DEFAULT_POLICIES : List GovernancePolicy :=
  [⟨"critical_service_human_review",
    "Critical services require human review for high-risk changes",
    "service.tier == ServiceTier.CRITICAL and risk_score > 0.5",
    "require_approval", "high"⟩,
   ⟨"no_friday_deployments",
    "Block deployments on Friday after 4 PM",
    "context.day_of_week == 4 and context.time_of_day_hour >= 16",
    "block", "medium"⟩,
   ⟨"error_budget_protection",
    "Block deployments when error budget exhausted",
    "service.error_budget_remaining <= 0",
    "block", "critical"⟩,
   ⟨"db_migration_review",
    "Database migrations require human review",
    "context.has_db_migration and service.tier.value <= 2",
    "require_approval", "high"⟩,
   ⟨"large_change_caution",
    "Large changes require extra canary stages",
    "context.change_size_lines > 1000",
    "warn", "medium"⟩]

/-- GovernanceEngine._evaluate_condition: substring-matched recognized
condition shapes. The Python `hasattr` guards always hold in this model
(all attributes exist). -/
def evaluateCondition (condition : String) (service : Service)
    (context : DeploymentContext) (risk_score : ℚ) : Bool :=
  if strContains condition "service.tier == ServiceTier.CRITICAL" then
    if service.tier ≠ ServiceTier.critical then false
    else if strContains condition "risk_score > 0.5" ∧ risk_score ≤ 0.5 then false
    else true
  else if strContains condition "day_of_week == 4" ∧ strContains condition "time_of_day_hour >= 16" then
    context.day_of_week = 4 ∧ context.time_of_day_hour ≥ 16
  else if strContains condition "error_budget_remaining <= 0" then
    service.error_budget_remaining ≤ 0
  else if strContains condition "has_db_migration" then
    if context.has_db_migration ∧ strContains condition "tier.value <= 2" then
      service.tier.value ≤ 2
    else false
  else if strContains condition "change_size_lines > 1000" then
    context.change_size_lines > 1000
  else false

/-- The result dictionary of GovernanceEngine.evaluate_policies. -/
structure PolicyResult where
  policies_evaluated : List String
  policies_violated : List String
  actions_required : List Json
  warnings : List Json
  allowed : Bool
  requires_approval : Bool
deriving Repr

/-- The initial results dictionary of evaluate_policies. -/
def PolicyResult.init : PolicyResult :=
  ⟨[], [], [], [], true, false⟩

/-- One iteration of the policy loop in evaluate_policies. -/
def evalPolicyStep (service : Service) (context : DeploymentContext) (risk_score : ℚ)
    (acc : PolicyResult) (policy : GovernancePolicy) : PolicyResult :=
  let acc := { acc with policies_evaluated := acc.policies_evaluated ++ [policy.name] }
  if evaluateCondition policy.condition service context risk_score then
    let acc := { acc with policies_violated := acc.policies_violated ++ [policy.name] }
    if policy.action = "block" then
      { acc with
        allowed := false
        actions_required := acc.actions_required ++
          [jobj [("policy", .str policy.name), ("action", .str "BLOCKED"),
                 ("reason", .str policy.description), ("severity", .str policy.severity)]] }
    else if policy.action = "require_approval" then
      { acc with
        requires_approval := true
        actions_required := acc.actions_required ++
          [jobj [("policy", .str policy.name), ("action", .str "REQUIRES_APPROVAL"),
                 ("reason", .str policy.description), ("severity", .str policy.severity)]] }
    else if policy.action = "warn" then
      { acc with
        warnings := acc.warnings ++
          [jobj [("policy", .str policy.name), ("message", .str policy.description),
                 ("severity", .str policy.severity)]] }
    else acc
  else acc

/-- GovernanceEngine.evaluate_policies. -/
def evaluate_policies (policies : List GovernancePolicy) (service : Service)
    (context : DeploymentContext) (risk_score : ℚ) : PolicyResult :=
  policies.foldl (evalPolicyStep service context risk_score) PolicyResult.init

/-- The policy-result dictionary as a JSON details value. -/
def PolicyResult.toJson (pr : PolicyResult) : Json :=
  jobj [("policies_evaluated", .arr (pr.policies_evaluated.map .str)),
        ("policies_violated", .arr (pr.policies_violated.map .str)),
        ("actions_required", .arr pr.actions_required),
        ("warnings", .arr pr.warnings),
        ("allowed", .bool pr.allowed),
        ("requires_approval", .bool pr.requires_approval)]

/-- RiskAssessment.to_dict as a JSON details value. -/
def RiskAssessment.toJson (ra : RiskAssessment) : Json :=
  jobj [("deployment_id", .str ra.deployment_id),
        ("risk_score", .num ra.risk_score),
        ("risk_level", .str ra.risk_level.pyValue),
        ("confidence", .num ra.confidence),
        ("factors", jobj (ra.factors.map (fun p => (p.1, Json.num p.2)))),
        ("recommendation", .str ra.recommendation),
        ("requires_human_review", .bool ra.requires_human_review)]

/-- GovernanceEngine.log_audit_event: constructs the entry, appends it to the
engine's global log and records the event on the deployment's own trail.
The timestamp (`datetime.now().isoformat()`) is passed in by the caller.
Returns the updated engine, updated deployment, and the new entry. -/
def log_audit_event (g : GovernanceEngine) (ts : String) (d : Deployment)
    (event_type action : String) (details : Json) (actor : String)
    (risk_assessment : Option RiskAssessment)
    (policies_evaluated policies_violated : List String) :
    GovernanceEngine × Deployment × AuditEntry :=
  let entry := mkAuditEntry ts d.id event_type actor action details
    (risk_assessment.map (·.risk_score)) (risk_assessment.map (·.confidence))
    policies_evaluated policies_violated
  ({ g with audit_log := g.audit_log ++ [entry] },
   { d with audit_trail := d.audit_trail ++ [(event_type, d.status)] },
   entry)

/-- The audit entries of one deployment (the filter in
generate_compliance_report). -/
def deploymentEvents (g : GovernanceEngine) (d : Deployment) : List AuditEntry :=
  g.audit_log.filter (fun e => e.deployment_id == d.id)

/-- The compliance report of GovernanceEngine.generate_compliance_report
(`generated_at`, `duration_minutes` and the timeline's timestamps are
wall-clock data, not modelled; `policies_violated` models Python's
`list(set(...))` as a deduplicated list). -/
structure ComplianceReport where
  deployment_id : String
  total_events : ℕ
  status : DeploymentStatus
  policies_violated : List String
  human_interventions : ℕ
  audit_integrity : Bool
deriving Repr

/-- GovernanceEngine.generate_compliance_report. -/
def generate_compliance_report (g : GovernanceEngine) (d : Deployment) :
    ComplianceReport :=
  let evs := deploymentEvents g d
  { deployment_id := d.id
    total_events := evs.length
    status := d.status
    policies_violated := (evs.foldr (fun e acc => e.policies_violated ++ acc) []).dedup
    human_interventions := (evs.filter (fun e => e.actor == "human_reviewer")).length
    audit_integrity := evs.all (fun e => e.hash == e.recomputeHash) }

/-- GovernanceEngine.check_safety_violation: true iff some audit entry of
this deployment lists a violated policy whose engine-registered action is
"block" while the deployment's status is COMPLETED. -/
def check_safety_violation (g : GovernanceEngine) (d : Deployment)
    (_action_taken : String) (_ctx : Json) : Bool :=
  g.audit_log.any (fun e =>
    e.deployment_id == d.id &&
    e.policies_violated.any (fun pname =>
      match g.policies.find? (fun p => p.name == pname) with
      | some p => p.action == "block" && d.status == DeploymentStatus.completed
      | none => false))

/-! ## pipeline.py -/

/-- pipeline.PipelineConfig. The four `enable_*` pillar flags default to
True and the orchestrator is embedded for that standard configuration, so
only `autonomy_level` and `simulate_human_approval` are carried. -/
structure PipelineConfig where
  autonomy_level : AutonomyLevel
  simulate_human_approval : Bool
deriving Repr

/-- The output of the external context-retrieval collaborator
(`ContextIngestion.gather_context`): the dictionary fields the orchestrator
reads, plus the similar-deployment counts and confidence with which
`gather_context` updates the deployment context in place. The retrieval
itself is an excluded stochastic subsystem and is modelled as this oracle
input. -/
structure RagContext where
  similar_deployments_count : ℤ
  historical_success_rate : ℚ
  rag_confidence : ℚ
  similar_past_failures : ℤ
  similar_past_successes : ℤ
deriving Repr

/-- The in-place context update performed by gather_context. -/
def applyGatherContext (rag : RagContext) (c : DeploymentContext) : DeploymentContext :=
  { c with
    similar_past_failures := rag.similar_past_failures
    similar_past_successes := rag.similar_past_successes
    rag_confidence := rag.rag_confidence }

/-- The canary phase of GenOpsPipeline.deploy (pipeline.py lines 213-279):
reset, execute the rollout, log the canary event, then either roll back or
complete. `clock k`, `clock (k+1)` supply the event timestamps and
`duration_minutes` abstracts the simulated wall-clock cycle time. -/
def deployCanaryPhase (g : GovernanceEngine) (canary_state : RolloutState)
    (d : Deployment) (risk_assessment : RiskAssessment) (sample : MetricsOracle)
    (failure_stage : Option ℕ) (clock : ℕ → String) (k : ℕ) (duration_minutes : ℚ) :
    GovernanceEngine × RolloutState × Deployment :=
  let d := { d with status := .canary_started }
  let st := canary_state.reset
  let pair := execute_rollout defaultSLOConfig st risk_assessment sample failure_stage
  let st' := pair.1
  let rollout := pair.2
  let d := { d with canary_metrics := rollout.metrics_history }
  let (g, d, _) := log_audit_event g (clock k) d "canary_completed" "canary_rollout"
    (jobj [("stages_completed", .num (rollout.stages_completed : ℚ)),
           ("rollback_triggered", .bool rollout.rollback_triggered),
           ("rollback_stage",
             match rollout.rollback_stage with
             | some s => .str s
             | none => .null),
           ("final_traffic", .num rollout.final_traffic_percentage)]) "ai_agent" none [] []
  if rollout.rollback_triggered then
    let d := { d with status := .rolled_back, rollback_reason := rollout.rollback_reason }
    let (g, d, _) := log_audit_event g (clock (k + 1)) d "rollback_executed" "automated_rollback"
      (jobj [("stage",
               match rollout.rollback_stage with
               | some s => .str s
               | none => .null),
             ("reason",
               match rollout.rollback_reason with
               | some r => .str r
               | none => .null)]) "ai_agent" none [] []
    (g, st', d)
  else
    let d := { d with status := .completed }
    let (g, d, _) := log_audit_event g (clock (k + 1)) d "deployment_completed" "success"
      (jobj [("duration_minutes", .num duration_minutes),
             ("final_status", .str "success")]) "ai_agent" none [] []
    (g, st', d)

/-- GenOpsPipeline.deploy, for the standard all-pillars-enabled
configuration. Oracle parameters model the non-deterministic collaborators:
`dep_id` the uuid4 deployment id, `rag` the context retrieval, `clock` the
event timestamps, `sample` the stage-metrics sampler,
`duration_minutes` the simulated cycle time. The scorer is
`RiskScorer(autonomy_level=config.autonomy_level)` as in
GenOpsPipeline.__init__, and the engine's policy set plays the role of the
pipeline's GovernanceEngine. In this total embedding no internal exception
can be raised, so the `except` branch (lines 281-292) is unreachable.
Returns the updated engine, the canary controller state, and the deployment. -/
def deploy (cfg : PipelineConfig) (g0 : GovernanceEngine) (canary_state : RolloutState)
    (service : Service) (context0 : DeploymentContext) (version : String)
    (dep_id : String) (rag : RagContext) (clock : ℕ → String)
    (sample : MetricsOracle) (failure_stage : Option ℕ) (duration_minutes : ℚ) :
    GovernanceEngine × RolloutState × Deployment :=
  let scorer := mkRiskScorer defaultRiskWeights cfg.autonomy_level
  let d0 : Deployment :=
    { id := dep_id, service_id := service.id, version := version,
      status := .pending, context := none, risk_assessment := none,
      canary_metrics := [], rollback_reason := none, audit_trail := [] }
  let (g1, d1, _) := log_audit_event g0 (clock 0) d0 "deployment_started" "initialize"
    (jobj [("service", .str service.name), ("version", .str version)]) "ai_agent" none [] []
  let context := applyGatherContext rag context0
  let d2 := { d1 with context := some context, status := .context_gathered }
  let (g2, d2, _) := log_audit_event g1 (clock 1) d2 "context_gathered" "rag_retrieval"
    (jobj [("similar_deployments", .num (rag.similar_deployments_count : ℚ)),
           ("historical_success_rate", .num rag.historical_success_rate),
           ("confidence", .num rag.rag_confidence)]) "ai_agent" none [] []
  let risk_assessment := calculate_risk_score scorer service context dep_id
  let d3 := { d2 with risk_assessment := some risk_assessment, status := .risk_assessed }
  let (g3, d3, _) := log_audit_event g2 (clock 2) d3 "risk_assessed" "risk_scoring"
    risk_assessment.toJson "ai_agent" (some risk_assessment) [] []
  let (budget_ok, budget_reason) := check_error_budget service
  if !budget_ok then
    let d4 := { d3 with status := .failed }
    let (g4, d4, _) := log_audit_event g3 (clock 3) d4 "deployment_blocked"
      "error_budget_exhausted" (jobj [("reason", .str budget_reason)]) "ai_agent" none [] []
    (g4, canary_state, d4)
  else
    let policy_result := evaluate_policies g3.policies service context risk_assessment.risk_score
    let (g4, d4, _) := log_audit_event g3 (clock 3) d3 "policies_evaluated" "governance_check"
      policy_result.toJson "ai_agent" none
      policy_result.policies_evaluated policy_result.policies_violated
    if !policy_result.allowed then
      let d5 := { d4 with status := .failed }
      let (g5, d5, _) := log_audit_event g4 (clock 4) d5 "deployment_blocked"
        "policy_violation"
        (jobj [("actions_required", .arr policy_result.actions_required)]) "ai_agent" none [] []
      (g5, canary_state, d5)
    else if policy_result.requires_approval then
      if cfg.simulate_human_approval then
        let (g5, d5, _) := log_audit_event g4 (clock 4) d4 "human_approval" "approved"
          (jobj [("simulated", .bool true)]) "human_reviewer" none [] []
        deployCanaryPhase g5 canary_state d5 risk_assessment sample failure_stage clock 5
          duration_minutes
      else
        let d5 := { d4 with status := .pending }
        let (g5, d5, _) := log_audit_event g4 (clock 4) d5 "awaiting_approval"
          "require_human_review" (.arr policy_result.actions_required) "ai_agent" none [] []
        (g5, canary_state, d5)
    else
      deployCanaryPhase g4 canary_state d4 risk_assessment sample failure_stage clock 4
        duration_minutes

/-- GenOpsPipeline._record_result: updates the study counters for one
finished deployment. `duration_minutes` abstracts
`deployment.duration_minutes`; the safety check queries the engine exactly
as the source does. -/
def record_result (g : GovernanceEngine) (r : StudyResults) (d : Deployment)
    (duration_minutes : ℚ) (success failed rolled_back canary_caught : Bool) :
    StudyResults :=
  let r := { r with
    total_deployments := r.total_deployments + 1
    total_cycle_time_minutes := r.total_cycle_time_minutes + duration_minutes }
  let r := if success then
    { r with successful_deployments := r.successful_deployments + 1 } else r
  let r := if failed then
    { r with failed_deployments := r.failed_deployments + 1 } else r
  let r := if rolled_back then
    { r with rolled_back_deployments := r.rolled_back_deployments + 1 } else r
  let r := if canary_caught then
    { r with canary_caught_issues := r.canary_caught_issues + 1 } else r
  if check_safety_violation g d "deploy" (jobj []) then
    { r with safety_violations := r.safety_violations + 1 }
  else r

/-- Python round(q, 1) (ties rounded away from zero; the source's values
never hit a tie). -/
def pyRound1 (q : ℚ) : ℚ :=
  (⌊q * 10 + 1 / 2⌋ : ℚ) / 10

/-- The `median_cycle_time_minutes` value exposed by
GenOpsPipeline.get_study_metrics: `round(results.median_cycle_time, 1)`. -/
def get_study_metrics_median (r : StudyResults) : ℚ :=
  pyRound1 r.median_cycle_time

/-- Ascending insertion of a rational into a sorted list. -/
def insertAsc (x : ℚ) : List ℚ → List ℚ
  | [] => [x]
  | y :: ys => if x ≤ y then x :: y :: ys else y :: insertAsc x ys

/-- Insertion sort, ascending. -/
def sortAsc (xs : List ℚ) : List ℚ :=
  xs.foldr insertAsc []

/-- The statistical median, defined from the spec's words (middle element of
the sorted values, mean of the two middle elements for an even count) for
comparison against the implementation's `median_cycle_time`. -/
def specStatisticalMedian (xs : List ℚ) : ℚ :=
  let s := sortAsc xs
  let n := s.length
  if n = 0 then 0
  else if n % 2 = 1 then s.getD (n / 2) 0
  else (s.getD (n / 2 - 1) 0 + s.getD (n / 2) 0) / 2

/-- Severity ordering of risk levels (Low < Medium < High < Critical). -/
def RiskLevel.rank : RiskLevel → ℕ
  | .low => 0
  | .medium => 1
  | .high => 2
  | .critical => 3

/-! ## Support lemmas: canary rollout -/

/-- SLO compliance verdict of a metrics record. -/
def sloCompliant (cfg : SLOConfig) (m : CanaryMetrics) : Bool :=
  (check_slo_compliance cfg m).1

theorem execute_stage_success (cfg : SLOConfig) (stage : CanaryStage) (m : CanaryMetrics)
    (h : sloCompliant cfg m = true) :
    execute_stage cfg stage m = (.success, m, none) := by
  unfold execute_stage
  rcases hcv : check_slo_compliance cfg m with ⟨c, v⟩
  have hc : c = true := by simpa [sloCompliant, hcv] using h
  subst hc
  simp

theorem execute_stage_rollback (cfg : SLOConfig) (stage : CanaryStage) (m : CanaryMetrics)
    (h : sloCompliant cfg m = false) :
    execute_stage cfg stage m =
      (.rollback, m, some ("SLO violations at " ++ stage.name ++ ": "
        ++ joinSemi (check_slo_compliance cfg m).2)) := by
  unfold execute_stage
  rcases hcv : check_slo_compliance cfg m with ⟨c, v⟩
  have hc : c = false := by simpa [sloCompliant, hcv] using h
  subst hc
  simp

theorem rolloutLoop_nil (cfg : SLOConfig) (sample : MetricsOracle) (fs : Option ℕ)
    (i : ℕ) (st : RolloutState) (hist : List CanaryMetrics) :
    rolloutLoop cfg sample fs [] i st hist = (st, hist, .completed) := rfl

theorem rolloutLoop_cons_rollback (cfg : SLOConfig) (sample : MetricsOracle)
    (fs : Option ℕ) (stage : CanaryStage) (rest : List CanaryStage) (i : ℕ)
    (st : RolloutState) (hist : List CanaryMetrics)
    (h : sloCompliant cfg (sample i stage (decide (fs = some i))) = false) :
    rolloutLoop cfg sample fs (stage :: rest) i st hist =
      ({ st with
         rollback_triggered := true
         rollback_reason := some ("SLO violations at " ++ stage.name ++ ": "
           ++ joinSemi (check_slo_compliance cfg
               (sample i stage (decide (fs = some i)))).2) },
       hist ++ [sample i stage (decide (fs = some i))], .rolled_back) := by
  simp only [rolloutLoop]
  rw [execute_stage_rollback _ _ _ h]
  simp

theorem rolloutLoop_cons_final (cfg : SLOConfig) (sample : MetricsOracle)
    (fs : Option ℕ) (stage : CanaryStage) (rest : List CanaryStage) (i : ℕ)
    (st : RolloutState) (hist : List CanaryMetrics)
    (h : sloCompliant cfg (sample i stage (decide (fs = some i))) = true)
    (ht : stage.traffic_percentage ≥ 1) :
    rolloutLoop cfg sample fs (stage :: rest) i st hist =
      (st, hist ++ [sample i stage (decide (fs = some i))], .completed) := by
  simp only [rolloutLoop]
  rw [execute_stage_success _ _ _ h]
  simp [ht]

theorem rolloutLoop_cons_step (cfg : SLOConfig) (sample : MetricsOracle)
    (fs : Option ℕ) (stage : CanaryStage) (rest : List CanaryStage) (i : ℕ)
    (st : RolloutState) (hist : List CanaryMetrics)
    (h : sloCompliant cfg (sample i stage (decide (fs = some i))) = true)
    (ht : ¬ stage.traffic_percentage ≥ 1) :
    rolloutLoop cfg sample fs (stage :: rest) i st hist =
      rolloutLoop cfg sample fs rest (i + 1) st
        (hist ++ [sample i stage (decide (fs = some i))]) := by
  simp only [rolloutLoop]
  rw [execute_stage_success _ _ _ h]
  simp [ht]

theorem rolloutLoop_status (cfg : SLOConfig) (sample : MetricsOracle) (fs : Option ℕ) :
    ∀ (stages : List CanaryStage) (i : ℕ) (st : RolloutState) (hist : List CanaryMetrics),
      (rolloutLoop cfg sample fs stages i st hist).2.2 = .completed ∨
      (rolloutLoop cfg sample fs stages i st hist).2.2 = .rolled_back := by
  intro stages
  induction stages with
  | nil => intro i st hist; left; rfl
  | cons stage rest ih =>
    intro i st hist
    by_cases hc : sloCompliant cfg (sample i stage (decide (fs = some i))) = true
    · by_cases ht : stage.traffic_percentage ≥ 1
      · rw [rolloutLoop_cons_final cfg sample fs stage rest i st hist hc ht]; left; rfl
      · rw [rolloutLoop_cons_step cfg sample fs stage rest i st hist hc ht]; exact ih ..
    · rw [rolloutLoop_cons_rollback cfg sample fs stage rest i st hist
        (by simpa using hc)]
      right; rfl

theorem rolloutLoop_all_compliant (cfg : SLOConfig) (sample : MetricsOracle) (fs : Option ℕ)
    (hall : ∀ i s b, sloCompliant cfg (sample i s b) = true) :
    ∀ (stages : List CanaryStage) (i : ℕ) (st : RolloutState) (hist : List CanaryMetrics),
      (rolloutLoop cfg sample fs stages i st hist).1 = st ∧
      (rolloutLoop cfg sample fs stages i st hist).2.2 = .completed := by
  intro stages
  induction stages with
  | nil => intro i st hist; exact ⟨rfl, rfl⟩
  | cons stage rest ih =>
    intro i st hist
    by_cases ht : stage.traffic_percentage ≥ 1
    · rw [rolloutLoop_cons_final cfg sample fs stage rest i st hist (hall ..) ht]
      exact ⟨rfl, rfl⟩
    · rw [rolloutLoop_cons_step cfg sample fs stage rest i st hist (hall ..) ht]
      exact ih ..

theorem rolloutLoop_hist_map {α : Type} (cfg : SLOConfig) (sample : MetricsOracle)
    (fs : Option ℕ) (f : CanaryMetrics → α) (fS : CanaryStage → α)
    (hf : ∀ i s b, f (sample i s b) = fS s) :
    ∀ (stages : List CanaryStage) (i : ℕ) (st : RolloutState) (hist : List CanaryMetrics),
      ∃ n, ((rolloutLoop cfg sample fs stages i st hist).2.1).map f =
        hist.map f ++ (stages.map fS).take n := by
  intro stages
  induction stages with
  | nil =>
    intro i st hist
    exact ⟨0, by simp [rolloutLoop_nil]⟩
  | cons stage rest ih =>
    intro i st hist
    by_cases hc : sloCompliant cfg (sample i stage (decide (fs = some i))) = true
    · by_cases ht : stage.traffic_percentage ≥ 1
      · refine ⟨1, ?_⟩
        rw [rolloutLoop_cons_final cfg sample fs stage rest i st hist hc ht]
        simp [hf]
      · obtain ⟨n, hn⟩ := ih (i + 1) st (hist ++ [sample i stage (decide (fs = some i))])
        refine ⟨n + 1, ?_⟩
        rw [rolloutLoop_cons_step cfg sample fs stage rest i st hist hc ht, hn]
        simp [hf]
    · refine ⟨1, ?_⟩
      rw [rolloutLoop_cons_rollback cfg sample fs stage rest i st hist
        (by simpa using hc)]
      simp [hf]

theorem rolloutLoop_completed_full (cfg : SLOConfig) (sample : MetricsOracle)
    (fs : Option ℕ) :
    ∀ (stages : List CanaryStage) (i : ℕ) (st : RolloutState) (hist : List CanaryMetrics),
      stages ≠ [] →
      (∀ s ∈ stages.dropLast, s.traffic_percentage < 1) →
      (rolloutLoop cfg sample fs stages i st hist).2.2 = .completed →
      (rolloutLoop cfg sample fs stages i st hist).2.1.length =
          hist.length + stages.length ∧
      ∃ j b s, stages.getLast? = some s ∧
        (rolloutLoop cfg sample fs stages i st hist).2.1.getLast? =
          some (sample j s b) := by
  intro stages
  induction stages with
  | nil => intro i st hist hne; exact absurd rfl hne
  | cons stage rest ih =>
    intro i st hist _ hlt hdone
    by_cases hc : sloCompliant cfg (sample i stage (decide (fs = some i))) = true
    · match rest, hlt with
      | [], hlt =>
        by_cases ht : stage.traffic_percentage ≥ 1
        · rw [rolloutLoop_cons_final cfg sample fs stage [] i st hist hc ht]
          exact ⟨by simp, i, decide (fs = some i), stage, rfl, by simp⟩
        · rw [rolloutLoop_cons_step cfg sample fs stage [] i st hist hc ht,
            rolloutLoop_nil]
          exact ⟨by simp, i, decide (fs = some i), stage, rfl, by simp⟩
      | r :: rs, hlt =>
        have hstage : stage.traffic_percentage < 1 := by
          apply hlt
          rw [List.dropLast_cons₂]
          exact List.mem_cons_self _ _
        have hstep := rolloutLoop_cons_step cfg sample fs stage (r :: rs) i st hist hc
          (not_le.mpr hstage)
        rw [hstep] at hdone ⊢
        have hlt' : ∀ s ∈ (r :: rs).dropLast, s.traffic_percentage < 1 := by
          intro s hs
          apply hlt
          rw [List.dropLast_cons₂]
          exact List.mem_cons_of_mem _ hs
        obtain ⟨hlen, j, b, s, hs, hlast⟩ :=
          ih (i + 1) st (hist ++ [sample i stage (decide (fs = some i))])
            (by simp) hlt' hdone
        refine ⟨?_, j, b, s, ?_, hlast⟩
        · rw [hlen]; simp; omega
        · rw [List.getLast?_cons_cons]; exact hs
    · rw [rolloutLoop_cons_rollback cfg sample fs stage rest i st hist
        (by simpa using hc)] at hdone
      simp at hdone

theorem rolloutLoop_completed_compliant (cfg : SLOConfig) (sample : MetricsOracle)
    (fs : Option ℕ) :
    ∀ (stages : List CanaryStage) (i : ℕ) (st : RolloutState) (hist : List CanaryMetrics),
      (rolloutLoop cfg sample fs stages i st hist).2.2 = .completed →
      ∀ m ∈ (rolloutLoop cfg sample fs stages i st hist).2.1,
        m ∈ hist ∨ sloCompliant cfg m = true := by
  intro stages
  induction stages with
  | nil =>
    intro i st hist _ m hm
    rw [rolloutLoop_nil] at hm
    exact Or.inl hm
  | cons stage rest ih =>
    intro i st hist hdone m hm
    by_cases hc : sloCompliant cfg (sample i stage (decide (fs = some i))) = true
    · by_cases ht : stage.traffic_percentage ≥ 1
      · rw [rolloutLoop_cons_final cfg sample fs stage rest i st hist hc ht] at hm
        rcases List.mem_append.mp hm with h | h
        · exact Or.inl h
        · right; rw [List.mem_singleton.mp h]; exact hc
      · rw [rolloutLoop_cons_step cfg sample fs stage rest i st hist hc ht] at hdone hm
        rcases ih (i + 1) st (hist ++ [sample i stage (decide (fs = some i))]) hdone m hm
          with h | h
        · rcases List.mem_append.mp h with h' | h'
          · exact Or.inl h'
          · right; rw [List.mem_singleton.mp h']; exact hc
        · exact Or.inr h
    · rw [rolloutLoop_cons_rollback cfg sample fs stage rest i st hist
        (by simpa using hc)] at hdone
      simp at hdone

theorem rolloutLoop_rolled_back_last (cfg : SLOConfig) (sample : MetricsOracle)
    (fs : Option ℕ) :
    ∀ (stages : List CanaryStage) (i : ℕ) (st : RolloutState) (hist : List CanaryMetrics),
      (rolloutLoop cfg sample fs stages i st hist).2.2 = .rolled_back →
      ∃ m, (rolloutLoop cfg sample fs stages i st hist).2.1.getLast? = some m ∧
        sloCompliant cfg m = false := by
  intro stages
  induction stages with
  | nil =>
    intro i st hist hdone
    rw [rolloutLoop_nil] at hdone
    simp at hdone
  | cons stage rest ih =>
    intro i st hist hdone
    by_cases hc : sloCompliant cfg (sample i stage (decide (fs = some i))) = true
    · by_cases ht : stage.traffic_percentage ≥ 1
      · rw [rolloutLoop_cons_final cfg sample fs stage rest i st hist hc ht] at hdone
        simp at hdone
      · rw [rolloutLoop_cons_step cfg sample fs stage rest i st hist hc ht] at hdone ⊢
        exact ih (i + 1) st (hist ++ [sample i stage (decide (fs = some i))]) hdone
    · rw [rolloutLoop_cons_rollback cfg sample fs stage rest i st hist
        (by simpa using hc)]
      exact ⟨sample i stage (decide (fs = some i)), by simp,
        by simpa using hc⟩

theorem execute_rollout_fst (cfg : SLOConfig) (st : RolloutState) (ra : RiskAssessment)
    (sample : MetricsOracle) (fs : Option ℕ) :
    (execute_rollout cfg st ra sample fs).1 =
      (rolloutLoop cfg sample fs (get_stages ra.risk_level) 0 st []).1 := rfl

theorem execute_rollout_status (cfg : SLOConfig) (st : RolloutState) (ra : RiskAssessment)
    (sample : MetricsOracle) (fs : Option ℕ) :
    (execute_rollout cfg st ra sample fs).2.status =
      (rolloutLoop cfg sample fs (get_stages ra.risk_level) 0 st []).2.2 := rfl

theorem execute_rollout_rollback_triggered (cfg : SLOConfig) (st : RolloutState)
    (ra : RiskAssessment) (sample : MetricsOracle) (fs : Option ℕ) :
    (execute_rollout cfg st ra sample fs).2.rollback_triggered =
      (rolloutLoop cfg sample fs (get_stages ra.risk_level) 0 st []).1.rollback_triggered :=
  rfl

/-! ## Claim theorems: canary rollout (C6, C8, C3, C10) -/

/-- C6: forcing a non-compliant metrics result at stage index 1 of the
standard 5-stage ladder makes execute_rollout stop immediately with status
RolledBack, report the second stage name "5%" as the rollback stage, and
record exactly the two stage-0 and stage-1 metrics, in order — the stage-0
record is not discarded. -/
theorem C6_forced_failure_at_stage1 (ra : RiskAssessment) (sample : MetricsOracle)
    (hrl : ra.risk_level = .low ∨ ra.risk_level = .medium)
    (hname : ∀ i s b, (sample i s b).stage = s.name)
    (h0 : sloCompliant defaultSLOConfig
      (sample 0 ⟨"1%", 0.01, 300, 600, 50⟩ false) = true)
    (h1 : sloCompliant defaultSLOConfig
      (sample 1 ⟨"5%", 0.05, 300, 600, 100⟩ true) = false) :
    (execute_rollout defaultSLOConfig RolloutState.init ra sample (some 1)).2.status =
        .rolled_back ∧
    (execute_rollout defaultSLOConfig RolloutState.init ra sample (some 1)).2.rollback_stage =
        some "5%" ∧
    (execute_rollout defaultSLOConfig RolloutState.init ra sample (some 1)).2.metrics_history =
        [sample 0 ⟨"1%", 0.01, 300, 600, 50⟩ false,
         sample 1 ⟨"5%", 0.05, 300, 600, 100⟩ true] ∧
    (execute_rollout defaultSLOConfig RolloutState.init ra sample (some 1)).2.stages_completed
        = 2 ∧
    (execute_rollout defaultSLOConfig RolloutState.init ra sample (some 1)).2.total_stages
        = 5 := by
  have hd0 : (decide ((some 1 : Option ℕ) = some 0)) = false := by decide
  have hd1 : (decide ((some 1 : Option ℕ) = some 1)) = true := by decide
  have hstages : get_stages ra.risk_level = DEFAULT_STAGES := by
    rcases hrl with h | h <;> simp [get_stages, h]
  have hstep := rolloutLoop_cons_step defaultSLOConfig sample (some 1)
    ⟨"1%", 0.01, 300, 600, 50⟩
    [⟨"5%", 0.05, 300, 600, 100⟩, ⟨"25%", 0.25, 300, 900, 500⟩,
     ⟨"50%", 0.50, 300, 900, 1000⟩, ⟨"100%", 1.00, 0, 0, 0⟩]
    0 RolloutState.init [] (by rw [hd0]; exact h0) (by norm_num)
  rw [hd0] at hstep
  have hroll := rolloutLoop_cons_rollback defaultSLOConfig sample (some 1)
    ⟨"5%", 0.05, 300, 600, 100⟩
    [⟨"25%", 0.25, 300, 900, 500⟩, ⟨"50%", 0.50, 300, 900, 1000⟩,
     ⟨"100%", 1.00, 0, 0, 0⟩]
    1 RolloutState.init ([] ++ [sample 0 ⟨"1%", 0.01, 300, 600, 50⟩ false])
    (by rw [hd1]; exact h1)
  rw [hd1] at hroll
  have hloop : rolloutLoop defaultSLOConfig sample (some 1) DEFAULT_STAGES 0
      RolloutState.init [] =
      ({ RolloutState.init with
         rollback_triggered := true
         rollback_reason := some ("SLO violations at "
           ++ (⟨"5%", 0.05, 300, 600, 100⟩ : CanaryStage).name ++ ": "
           ++ joinSemi (check_slo_compliance defaultSLOConfig
               (sample 1 ⟨"5%", 0.05, 300, 600, 100⟩ true)).2) },
       ([] ++ [sample 0 ⟨"1%", 0.01, 300, 600, 50⟩ false])
         ++ [sample 1 ⟨"5%", 0.05, 300, 600, 100⟩ true], .rolled_back) := by
    rw [show DEFAULT_STAGES =
      (⟨"1%", 0.01, 300, 600, 50⟩ : CanaryStage) ::
      [⟨"5%", 0.05, 300, 600, 100⟩, ⟨"25%", 0.25, 300, 900, 500⟩,
       ⟨"50%", 0.50, 300, 900, 1000⟩, ⟨"100%", 1.00, 0, 0, 0⟩] from rfl]
    rw [hstep, hroll]
  simp only [execute_rollout, hstages, hloop]
  simp [hname, DEFAULT_STAGES]

/-- C8: High/Critical risk selects the extended 7-stage ladder and other
levels the standard 5-stage ladder, with the listed traffic fractions; in
every run (for a metrics source that reports the stage's traffic fraction,
as the source's sampler does) the executed traffic fractions are
non-decreasing, and a run that ends Completed executed the whole ladder
with final fraction 1. -/
theorem C8_ladder_shape_and_completion :
    (get_stages .high = HIGH_RISK_STAGES ∧ get_stages .critical = HIGH_RISK_STAGES ∧
     get_stages .low = DEFAULT_STAGES ∧ get_stages .medium = DEFAULT_STAGES) ∧
    (HIGH_RISK_STAGES.map (·.traffic_percentage) =
        [0.01, 0.02, 0.05, 0.10, 0.25, 0.50, 1] ∧
     DEFAULT_STAGES.map (·.traffic_percentage) = [0.01, 0.05, 0.25, 0.50, 1]) ∧
    ∀ (cfg : SLOConfig) (st : RolloutState) (ra : RiskAssessment)
      (sample : MetricsOracle) (fs : Option ℕ),
      (∀ i s b, (sample i s b).traffic_percentage = s.traffic_percentage) →
      List.Sorted (· ≤ ·)
        (((execute_rollout cfg st ra sample fs).2.metrics_history).map
          (·.traffic_percentage)) ∧
      ((execute_rollout cfg st ra sample fs).2.status = .completed →
        (execute_rollout cfg st ra sample fs).2.metrics_history.length =
          (get_stages ra.risk_level).length ∧
        ((execute_rollout cfg st ra sample fs).2.metrics_history.getLast?.map
          (·.traffic_percentage)) = some 1) := by
  refine ⟨⟨by simp [get_stages], by simp [get_stages], by simp [get_stages],
    by simp [get_stages]⟩,
    ⟨by simp [HIGH_RISK_STAGES]; norm_num, by simp [DEFAULT_STAGES]; norm_num⟩, ?_⟩
  intro cfg st ra sample fs htr
  have hsorted : List.Sorted (· ≤ ·)
      ((get_stages ra.risk_level).map (·.traffic_percentage)) := by
    unfold get_stages
    split
    · show List.Sorted (· ≤ ·) (HIGH_RISK_STAGES.map (·.traffic_percentage))
      rw [show HIGH_RISK_STAGES.map (·.traffic_percentage) =
        [0.01, 0.02, 0.05, 0.10, 0.25, 0.50, 1.00] from rfl]
      simp [List.sorted_cons]
      norm_num
    · show List.Sorted (· ≤ ·) (DEFAULT_STAGES.map (·.traffic_percentage))
      rw [show DEFAULT_STAGES.map (·.traffic_percentage) =
        [0.01, 0.05, 0.25, 0.50, 1.00] from rfl]
      simp [List.sorted_cons]
      norm_num
  constructor
  · unfold execute_rollout
    obtain ⟨n, hn⟩ := rolloutLoop_hist_map cfg sample fs (·.traffic_percentage)
      (·.traffic_percentage) htr (get_stages ra.risk_level) 0 st []
    show List.Sorted (· ≤ ·)
      ((rolloutLoop cfg sample fs (get_stages ra.risk_level) 0 st []).2.1.map
        (·.traffic_percentage))
    rw [hn]
    simp only [List.map_nil, List.nil_append]
    exact List.Pairwise.sublist (List.take_sublist ..) hsorted
  · intro hdone
    have hne : get_stages ra.risk_level ≠ [] := by
      unfold get_stages
      split <;> simp [HIGH_RISK_STAGES, DEFAULT_STAGES]
    have hdrop : ∀ s ∈ (get_stages ra.risk_level).dropLast,
        s.traffic_percentage < 1 := by
      unfold get_stages
      split
      · intro s hs
        rw [show HIGH_RISK_STAGES.dropLast =
          [⟨"1%", 0.01, 600, 900, 100⟩, ⟨"2%", 0.02, 300, 600, 100⟩,
           ⟨"5%", 0.05, 300, 600, 200⟩, ⟨"10%", 0.10, 300, 600, 500⟩,
           ⟨"25%", 0.25, 300, 900, 1000⟩, ⟨"50%", 0.50, 300, 900, 2000⟩] from rfl] at hs
        simp only [List.mem_cons, List.not_mem_nil, or_false] at hs
        rcases hs with rfl | rfl | rfl | rfl | rfl | rfl <;> norm_num
      · intro s hs
        rw [show DEFAULT_STAGES.dropLast =
          [⟨"1%", 0.01, 300, 600, 50⟩, ⟨"5%", 0.05, 300, 600, 100⟩,
           ⟨"25%", 0.25, 300, 900, 500⟩, ⟨"50%", 0.50, 300, 900, 1000⟩] from rfl] at hs
        simp only [List.mem_cons, List.not_mem_nil, or_false] at hs
        rcases hs with rfl | rfl | rfl | rfl <;> norm_num
    have hdone' : (rolloutLoop cfg sample fs (get_stages ra.risk_level) 0 st []).2.2 =
        .completed := hdone
    obtain ⟨hlen, j, b, s, hs, hlast⟩ := rolloutLoop_completed_full cfg sample fs
      (get_stages ra.risk_level) 0 st [] hne hdrop hdone'
    have hs1 : s.traffic_percentage = 1 := by
      revert hs
      unfold get_stages
      split
      · intro hs
        rw [show HIGH_RISK_STAGES.getLast? = some ⟨"100%", 1.00, 0, 0, 0⟩ from rfl] at hs
        cases Option.some.inj hs
        norm_num
      · intro hs
        rw [show DEFAULT_STAGES.getLast? = some ⟨"100%", 1.00, 0, 0, 0⟩ from rfl] at hs
        cases Option.some.inj hs
        norm_num
    refine ⟨by simpa using hlen, ?_⟩
    show ((rolloutLoop cfg sample fs (get_stages ra.risk_level) 0 st []).2.1.getLast?.map
      (·.traffic_percentage)) = some 1
    rw [hlast]
    simp [htr, hs1]

/-- C3 counterexample: a stage whose metrics meet a kill-switch condition
(p99 latency at 5× a 110 ms baseline) but pass every SLO check is NOT
rolled back — execute_rollout completes the whole rollout, because it never
consults KillSwitch.check. This falsifies the claim that a kill-switch
condition always forces an immediate rollback. -/
theorem C3_counterexample :
    ((KillSwitch.init.check ⟨"1%", 0.01, 300, 0.003, 50, 550, 0.997, 0⟩ 110).2.1 = true) ∧
    ((execute_rollout defaultSLOConfig RolloutState.init
        ⟨"dep-1", 0.2, .low, 0.9, [], "", false⟩
        (fun _ _ _ => ⟨"1%", 0.01, 300, 0.003, 50, 550, 0.997, 0⟩) none).2.status =
      DeploymentStatus.completed) ∧
    ((execute_rollout defaultSLOConfig RolloutState.init
        ⟨"dep-1", 0.2, .low, 0.9, [], "", false⟩
        (fun _ _ _ => ⟨"1%", 0.01, 300, 0.003, 50, 550, 0.997, 0⟩) none).2.rollback_triggered
      = false) := by
  have hall : ∀ (i : ℕ) (s : CanaryStage) (b : Bool), sloCompliant defaultSLOConfig
      ((fun (_ : ℕ) (_ : CanaryStage) (_ : Bool) =>
        (⟨"1%", 0.01, 300, 0.003, 50, 550, 0.997, 0⟩ : CanaryMetrics)) i s b) = true := by
    intro i s b
    norm_num [sloCompliant, check_slo_compliance, defaultSLOConfig]
  have h := rolloutLoop_all_compliant defaultSLOConfig
    (fun _ _ _ => ⟨"1%", 0.01, 300, 0.003, 50, 550, 0.997, 0⟩) none hall
    (get_stages RiskLevel.low) 0 RolloutState.init []
  have e1 : ¬ ((⟨"1%", 0.01, 300, 0.003, 50, 550, 0.997, 0⟩ : CanaryMetrics).error_rate ≥
      KillSwitch.init.error_rate_kill_threshold) := by
    show ¬ ((0.003 : ℚ) ≥ 0.05)
    norm_num
  have e2 : (⟨"1%", 0.01, 300, 0.003, 50, 550, 0.997, 0⟩ : CanaryMetrics).latency_p99_ms ≥
      110 * KillSwitch.init.latency_spike_multiplier := by
    show (550 : ℚ) ≥ 110 * 5
    norm_num
  refine ⟨?_, ?_, ?_⟩
  · unfold KillSwitch.check
    rw [if_neg e1, if_pos e2]
  · rw [execute_rollout_status]
    exact h.2
  · rw [execute_rollout_rollback_triggered, h.1]
    rfl

/-- C3 amended: KillSwitch.check, taken on its own, triggers exactly on the
three documented conditions and maintains the consecutive-violation counter
(reset on a fully compliant stage); but execute_rollout never invokes the
kill switch: its rollback decision is exactly per-stage SLO compliance — a
Completed run sampled only SLO-compliant metrics, and a RolledBack run ends
at an SLO-non-compliant record. -/
theorem C3_killswitch_not_wired :
    (∀ (ks : KillSwitch) (m : CanaryMetrics) (baseline : ℚ),
      ((ks.check m baseline).2.1 = true ↔
        (m.error_rate ≥ ks.error_rate_kill_threshold ∨
         m.latency_p99_ms ≥ baseline * ks.latency_spike_multiplier ∨
         (m.slo_violations > 0 ∧ ks.failure_count + 1 ≥ ks.consecutive_failures)))) ∧
    (∀ (ks : KillSwitch) (m : CanaryMetrics) (baseline : ℚ),
      ¬ m.error_rate ≥ ks.error_rate_kill_threshold →
      ¬ m.latency_p99_ms ≥ baseline * ks.latency_spike_multiplier →
      ((m.slo_violations ≤ 0 → ((ks.check m baseline).1).failure_count = 0) ∧
       (m.slo_violations > 0 → ((ks.check m baseline).1).failure_count =
          ks.failure_count + 1))) ∧
    (∀ (cfg : SLOConfig) (st : RolloutState) (ra : RiskAssessment)
       (sample : MetricsOracle) (fs : Option ℕ),
      ((execute_rollout cfg st ra sample fs).2.status = .completed →
        ∀ m ∈ (execute_rollout cfg st ra sample fs).2.metrics_history,
          sloCompliant cfg m = true) ∧
      ((execute_rollout cfg st ra sample fs).2.status = .rolled_back →
        ∃ m, (execute_rollout cfg st ra sample fs).2.metrics_history.getLast? = some m ∧
          sloCompliant cfg m = false)) := by
  refine ⟨?_, ?_, ?_⟩
  · intro ks m baseline
    unfold KillSwitch.check
    by_cases h1 : m.error_rate ≥ ks.error_rate_kill_threshold
    · rw [if_pos h1]; simp [h1]
    · rw [if_neg h1]
      by_cases h2 : m.latency_p99_ms ≥ baseline * ks.latency_spike_multiplier
      · rw [if_pos h2]; simp [h1, h2]
      · rw [if_neg h2]
        by_cases h3 : m.slo_violations > 0
        · rw [if_pos h3]
          by_cases h4 : ks.failure_count + 1 ≥ ks.consecutive_failures
          · rw [if_pos h4]; simp [h1, h2, h3, h4]
          · rw [if_neg h4]; simp [h1, h2, h3, h4]
        · rw [if_neg h3]; simp [h1, h2, h3]
  · intro ks m baseline h1 h2
    unfold KillSwitch.check
    rw [if_neg h1, if_neg h2]
    by_cases h3 : m.slo_violations > 0
    · rw [if_pos h3]
      constructor
      · intro habs; omega
      · intro _
        by_cases h4 : ks.failure_count + 1 ≥ ks.consecutive_failures
        · rw [if_pos h4]
        · rw [if_neg h4]
    · rw [if_neg h3]
      constructor
      · intro _; rfl
      · intro habs; omega
  · intro cfg st ra sample fs
    constructor
    · intro hdone m hm
      have := rolloutLoop_completed_compliant cfg sample fs
        (get_stages ra.risk_level) 0 st [] hdone m hm
      simpa using this
    · intro hdone
      exact rolloutLoop_rolled_back_last cfg sample fs
        (get_stages ra.risk_level) 0 st [] hdone

/-- C10: the rollout controller carries rollback state across runs — after
a rolled-back run, a second execute_rollout without reset() reports
rollback_triggered = true, the previous run's rollback_reason, and the
second run's last executed stage name ("100%") as rollback_stage, even
though every stage of the second run is compliant and the status field is
Completed. -/
theorem C10_stale_rollback_state (cfg : SLOConfig) (ra : RiskAssessment)
    (sample1 sample2 : MetricsOracle)
    (hbad : ∀ s b, sloCompliant cfg (sample1 0 s b) = false)
    (hall : ∀ i s b, sloCompliant cfg (sample2 i s b) = true)
    (hname : ∀ i s b, (sample2 i s b).stage = s.name) :
    (execute_rollout cfg RolloutState.init ra sample1 (some 0)).2.status = .rolled_back ∧
    (execute_rollout cfg
        (execute_rollout cfg RolloutState.init ra sample1 (some 0)).1
        ra sample2 none).2.status = .completed ∧
    (execute_rollout cfg
        (execute_rollout cfg RolloutState.init ra sample1 (some 0)).1
        ra sample2 none).2.rollback_triggered = true ∧
    (execute_rollout cfg
        (execute_rollout cfg RolloutState.init ra sample1 (some 0)).1
        ra sample2 none).2.rollback_reason =
      (execute_rollout cfg RolloutState.init ra sample1 (some 0)).2.rollback_reason ∧
    (execute_rollout cfg
        (execute_rollout cfg RolloutState.init ra sample1 (some 0)).1
        ra sample2 none).2.rollback_stage = some "100%" := by
  have hne : get_stages ra.risk_level ≠ [] := by
    unfold get_stages
    split <;> simp [HIGH_RISK_STAGES, DEFAULT_STAGES]
  have hdrop : ∀ s ∈ (get_stages ra.risk_level).dropLast,
      s.traffic_percentage < 1 := by
    unfold get_stages
    split
    · intro s hs
      rw [show HIGH_RISK_STAGES.dropLast =
        [⟨"1%", 0.01, 600, 900, 100⟩, ⟨"2%", 0.02, 300, 600, 100⟩,
         ⟨"5%", 0.05, 300, 600, 200⟩, ⟨"10%", 0.10, 300, 600, 500⟩,
         ⟨"25%", 0.25, 300, 900, 1000⟩, ⟨"50%", 0.50, 300, 900, 2000⟩] from rfl] at hs
      simp only [List.mem_cons, List.not_mem_nil, or_false] at hs
      rcases hs with rfl | rfl | rfl | rfl | rfl | rfl <;> norm_num
    · intro s hs
      rw [show DEFAULT_STAGES.dropLast =
        [⟨"1%", 0.01, 300, 600, 50⟩, ⟨"5%", 0.05, 300, 600, 100⟩,
         ⟨"25%", 0.25, 300, 900, 500⟩, ⟨"50%", 0.50, 300, 900, 1000⟩] from rfl] at hs
      simp only [List.mem_cons, List.not_mem_nil, or_false] at hs
      rcases hs with rfl | rfl | rfl | rfl <;> norm_num
  have hlastname : ∀ s, (get_stages ra.risk_level).getLast? = some s → s.name = "100%" := by
    unfold get_stages
    split
    · intro s hs
      rw [show HIGH_RISK_STAGES.getLast? = some ⟨"100%", 1.00, 0, 0, 0⟩ from rfl] at hs
      cases Option.some.inj hs
      rfl
    · intro s hs
      rw [show DEFAULT_STAGES.getLast? = some ⟨"100%", 1.00, 0, 0, 0⟩ from rfl] at hs
      cases Option.some.inj hs
      rfl
  obtain ⟨hd, tl, hcons⟩ : ∃ hd tl, get_stages ra.risk_level = hd :: tl := by
    cases hgs : get_stages ra.risk_level with
    | nil => exact absurd hgs hne
    | cons hd tl => exact ⟨hd, tl, rfl⟩
  have hrun1 : rolloutLoop cfg sample1 (some 0) (get_stages ra.risk_level) 0
      RolloutState.init [] =
      ({ RolloutState.init with
         rollback_triggered := true
         rollback_reason := some ("SLO violations at " ++ hd.name ++ ": "
           ++ joinSemi (check_slo_compliance cfg
               (sample1 0 hd (decide ((some 0 : Option ℕ) = some 0)))).2) },
       [] ++ [sample1 0 hd (decide ((some 0 : Option ℕ) = some 0))], .rolled_back) := by
    rw [hcons]
    exact rolloutLoop_cons_rollback cfg sample1 (some 0) hd tl 0 RolloutState.init []
      (hbad ..)
  have hstate2 := rolloutLoop_all_compliant cfg sample2 none hall
    (get_stages ra.risk_level) 0
    (execute_rollout cfg RolloutState.init ra sample1 (some 0)).1 []
  have hdone2 : (rolloutLoop cfg sample2 none (get_stages ra.risk_level) 0
      (execute_rollout cfg RolloutState.init ra sample1 (some 0)).1 []).2.2 =
      .completed := hstate2.2
  obtain ⟨hlen2, j, b, s, hs, hlast2⟩ := rolloutLoop_completed_full cfg sample2 none
    (get_stages ra.risk_level) 0
    (execute_rollout cfg RolloutState.init ra sample1 (some 0)).1 [] hne hdrop hdone2
  have htrig : (execute_rollout cfg RolloutState.init ra sample1 (some 0)).1.rollback_triggered
      = true := by
    show (rolloutLoop cfg sample1 (some 0) (get_stages ra.risk_level) 0
      RolloutState.init []).1.rollback_triggered = true
    rw [hrun1]
  refine ⟨?_, hstate2.2, ?_, ?_, ?_⟩
  · show (rolloutLoop cfg sample1 (some 0) (get_stages ra.risk_level) 0
      RolloutState.init []).2.2 = .rolled_back
    rw [hrun1]
  · show (rolloutLoop cfg sample2 none (get_stages ra.risk_level) 0
      (execute_rollout cfg RolloutState.init ra sample1 (some 0)).1 []).1.rollback_triggered
      = true
    rw [hstate2.1]
    exact htrig
  · show (rolloutLoop cfg sample2 none _ 0 _ []).1.rollback_reason =
      (rolloutLoop cfg sample1 (some 0) _ 0 RolloutState.init []).1.rollback_reason
    rw [hstate2.1]
    rfl
  · show (if (rolloutLoop cfg sample2 none (get_stages ra.risk_level) 0
        (execute_rollout cfg RolloutState.init ra sample1 (some 0)).1 []).1.rollback_triggered
        then (rolloutLoop cfg sample2 none (get_stages ra.risk_level) 0
          (execute_rollout cfg RolloutState.init ra sample1 (some 0)).1 []).2.1.getLast?.map
            (·.stage)
        else none) = some "100%"
    rw [hstate2.1, htrig]
    simp only [if_true]
    rw [hlast2]
    simp [hname, hlastname s hs]

/-- Witness for C6 at a concrete metrics oracle (compliant metrics normally,
SLO-breaching metrics when failure is forced). -/
theorem C6_forced_failure_witness :
    (sloCompliant defaultSLOConfig
      ((fun (_ : ℕ) (s : CanaryStage) (b : Bool) =>
        if b then (⟨s.name, s.traffic_percentage, 300, 0.05, 50, 150, 0.95, 2⟩ : CanaryMetrics)
        else ⟨s.name, s.traffic_percentage, 300, 0.003, 50, 150, 0.997, 0⟩)
        0 ⟨"1%", 0.01, 300, 600, 50⟩ false) = true) ∧
    (sloCompliant defaultSLOConfig
      ((fun (_ : ℕ) (s : CanaryStage) (b : Bool) =>
        if b then (⟨s.name, s.traffic_percentage, 300, 0.05, 50, 150, 0.95, 2⟩ : CanaryMetrics)
        else ⟨s.name, s.traffic_percentage, 300, 0.003, 50, 150, 0.997, 0⟩)
        1 ⟨"5%", 0.05, 300, 600, 100⟩ true) = false) ∧
    (execute_rollout defaultSLOConfig RolloutState.init
        ⟨"d", 0.2, RiskLevel.low, 0.9, [], "", false⟩
        (fun (_ : ℕ) (s : CanaryStage) (b : Bool) =>
          if b then (⟨s.name, s.traffic_percentage, 300, 0.05, 50, 150, 0.95, 2⟩ : CanaryMetrics)
          else ⟨s.name, s.traffic_percentage, 300, 0.003, 50, 150, 0.997, 0⟩)
        (some 1)).2.status = .rolled_back := by
  have h0 : sloCompliant defaultSLOConfig
      ((fun (_ : ℕ) (s : CanaryStage) (b : Bool) =>
        if b then (⟨s.name, s.traffic_percentage, 300, 0.05, 50, 150, 0.95, 2⟩ : CanaryMetrics)
        else ⟨s.name, s.traffic_percentage, 300, 0.003, 50, 150, 0.997, 0⟩)
        0 ⟨"1%", 0.01, 300, 600, 50⟩ false) = true := by
    norm_num [sloCompliant, check_slo_compliance, defaultSLOConfig]
  have h1 : sloCompliant defaultSLOConfig
      ((fun (_ : ℕ) (s : CanaryStage) (b : Bool) =>
        if b then (⟨s.name, s.traffic_percentage, 300, 0.05, 50, 150, 0.95, 2⟩ : CanaryMetrics)
        else ⟨s.name, s.traffic_percentage, 300, 0.003, 50, 150, 0.997, 0⟩)
        1 ⟨"5%", 0.05, 300, 600, 100⟩ true) = false := by
    norm_num [sloCompliant, check_slo_compliance, defaultSLOConfig]
  exact ⟨h0, h1,
    (C6_forced_failure_at_stage1 ⟨"d", 0.2, RiskLevel.low, 0.9, [], "", false⟩
      (fun (_ : ℕ) (s : CanaryStage) (b : Bool) =>
        if b then (⟨s.name, s.traffic_percentage, 300, 0.05, 50, 150, 0.95, 2⟩ : CanaryMetrics)
        else ⟨s.name, s.traffic_percentage, 300, 0.003, 50, 150, 0.997, 0⟩)
      (Or.inl rfl) (fun i s b => by cases b <;> rfl) h0 h1).1⟩

/-- Witness for C8 at a concrete stage-faithful metrics oracle. -/
theorem C8_ladder_witness :
    (∀ (i : ℕ) (s : CanaryStage) (b : Bool),
      ((fun (_ : ℕ) (s : CanaryStage) (_ : Bool) =>
        (⟨s.name, s.traffic_percentage, 300, 0.003, 50, 150, 0.997, 0⟩ : CanaryMetrics))
        i s b).traffic_percentage = s.traffic_percentage) ∧
    (List.Sorted (· ≤ ·)
      (((execute_rollout defaultSLOConfig RolloutState.init
          ⟨"d", 0.2, RiskLevel.low, 0.9, [], "", false⟩
          (fun (_ : ℕ) (s : CanaryStage) (_ : Bool) =>
            ⟨s.name, s.traffic_percentage, 300, 0.003, 50, 150, 0.997, 0⟩)
          none).2.metrics_history).map (·.traffic_percentage)) ∧
     ((execute_rollout defaultSLOConfig RolloutState.init
          ⟨"d", 0.2, RiskLevel.low, 0.9, [], "", false⟩
          (fun (_ : ℕ) (s : CanaryStage) (_ : Bool) =>
            ⟨s.name, s.traffic_percentage, 300, 0.003, 50, 150, 0.997, 0⟩)
          none).2.status = .completed →
       (execute_rollout defaultSLOConfig RolloutState.init
          ⟨"d", 0.2, RiskLevel.low, 0.9, [], "", false⟩
          (fun (_ : ℕ) (s : CanaryStage) (_ : Bool) =>
            ⟨s.name, s.traffic_percentage, 300, 0.003, 50, 150, 0.997, 0⟩)
          none).2.metrics_history.length =
         (get_stages (⟨"d", 0.2, RiskLevel.low, 0.9, [], "", false⟩ :
            RiskAssessment).risk_level).length ∧
       ((execute_rollout defaultSLOConfig RolloutState.init
          ⟨"d", 0.2, RiskLevel.low, 0.9, [], "", false⟩
          (fun (_ : ℕ) (s : CanaryStage) (_ : Bool) =>
            ⟨s.name, s.traffic_percentage, 300, 0.003, 50, 150, 0.997, 0⟩)
          none).2.metrics_history.getLast?.map (·.traffic_percentage)) = some 1)) :=
  ⟨fun _ _ _ => rfl,
   C8_ladder_shape_and_completion.2.2 defaultSLOConfig RolloutState.init
     ⟨"d", 0.2, RiskLevel.low, 0.9, [], "", false⟩
     (fun (_ : ℕ) (s : CanaryStage) (_ : Bool) =>
       ⟨s.name, s.traffic_percentage, 300, 0.003, 50, 150, 0.997, 0⟩)
     none (fun _ _ _ => rfl)⟩

/-- Witness for C10: a first run forced to fail at stage 0, then a second
fully compliant run on the same un-reset controller. -/
theorem C10_stale_state_witness :
    (∀ (s : CanaryStage) (b : Bool), sloCompliant defaultSLOConfig
      ((fun (_ : ℕ) (s : CanaryStage) (_ : Bool) =>
        (⟨s.name, s.traffic_percentage, 300, 0.05, 50, 700, 0.95, 3⟩ : CanaryMetrics))
        0 s b) = false) ∧
    (∀ (i : ℕ) (s : CanaryStage) (b : Bool), sloCompliant defaultSLOConfig
      ((fun (_ : ℕ) (s : CanaryStage) (_ : Bool) =>
        (⟨s.name, s.traffic_percentage, 300, 0.003, 50, 150, 0.997, 0⟩ : CanaryMetrics))
        i s b) = true) ∧
    (execute_rollout defaultSLOConfig
      (execute_rollout defaultSLOConfig RolloutState.init
        ⟨"d", 0.2, RiskLevel.low, 0.9, [], "", false⟩
        (fun (_ : ℕ) (s : CanaryStage) (_ : Bool) =>
          ⟨s.name, s.traffic_percentage, 300, 0.05, 50, 700, 0.95, 3⟩) (some 0)).1
      ⟨"d", 0.2, RiskLevel.low, 0.9, [], "", false⟩
      (fun (_ : ℕ) (s : CanaryStage) (_ : Bool) =>
        ⟨s.name, s.traffic_percentage, 300, 0.003, 50, 150, 0.997, 0⟩)
      none).2.rollback_triggered = true ∧
    (execute_rollout defaultSLOConfig
      (execute_rollout defaultSLOConfig RolloutState.init
        ⟨"d", 0.2, RiskLevel.low, 0.9, [], "", false⟩
        (fun (_ : ℕ) (s : CanaryStage) (_ : Bool) =>
          ⟨s.name, s.traffic_percentage, 300, 0.05, 50, 700, 0.95, 3⟩) (some 0)).1
      ⟨"d", 0.2, RiskLevel.low, 0.9, [], "", false⟩
      (fun (_ : ℕ) (s : CanaryStage) (_ : Bool) =>
        ⟨s.name, s.traffic_percentage, 300, 0.003, 50, 150, 0.997, 0⟩)
      none).2.status = .completed := by
  have hbad : ∀ (s : CanaryStage) (b : Bool), sloCompliant defaultSLOConfig
      ((fun (_ : ℕ) (s : CanaryStage) (_ : Bool) =>
        (⟨s.name, s.traffic_percentage, 300, 0.05, 50, 700, 0.95, 3⟩ : CanaryMetrics))
        0 s b) = false := by
    intro s b
    norm_num [sloCompliant, check_slo_compliance, defaultSLOConfig]
  have hall : ∀ (i : ℕ) (s : CanaryStage) (b : Bool), sloCompliant defaultSLOConfig
      ((fun (_ : ℕ) (s : CanaryStage) (_ : Bool) =>
        (⟨s.name, s.traffic_percentage, 300, 0.003, 50, 150, 0.997, 0⟩ : CanaryMetrics))
        i s b) = true := by
    intro i s b
    norm_num [sloCompliant, check_slo_compliance, defaultSLOConfig]
  have := C10_stale_rollback_state defaultSLOConfig
    ⟨"d", 0.2, RiskLevel.low, 0.9, [], "", false⟩
    (fun (_ : ℕ) (s : CanaryStage) (_ : Bool) =>
      ⟨s.name, s.traffic_percentage, 300, 0.05, 50, 700, 0.95, 3⟩)
    (fun (_ : ℕ) (s : CanaryStage) (_ : Bool) =>
      ⟨s.name, s.traffic_percentage, 300, 0.003, 50, 150, 0.997, 0⟩)
    hbad hall (fun _ _ _ => rfl)
  exact ⟨hbad, hall, this.2.2.1, this.2.1⟩

/-- Witness for the amended C3 at a concrete switch and metrics record:
neither threshold condition holds and a fully compliant stage resets the
consecutive-violation counter. -/
theorem C3_killswitch_witness :
    (¬ ((⟨"1%", 0.01, 300, 0.003, 50, 150, 0.997, 0⟩ : CanaryMetrics).error_rate ≥
        KillSwitch.init.error_rate_kill_threshold)) ∧
    (¬ ((⟨"1%", 0.01, 300, 0.003, 50, 150, 0.997, 0⟩ : CanaryMetrics).latency_p99_ms ≥
        1000 * KillSwitch.init.latency_spike_multiplier)) ∧
    ((KillSwitch.init.check ⟨"1%", 0.01, 300, 0.003, 50, 150, 0.997, 0⟩ 1000).1).failure_count
      = 0 := by
  have h1 : ¬ ((⟨"1%", 0.01, 300, 0.003, 50, 150, 0.997, 0⟩ : CanaryMetrics).error_rate ≥
      KillSwitch.init.error_rate_kill_threshold) := by
    show ¬ ((0.003 : ℚ) ≥ 0.05)
    norm_num
  have h2 : ¬ ((⟨"1%", 0.01, 300, 0.003, 50, 150, 0.997, 0⟩ : CanaryMetrics).latency_p99_ms ≥
      1000 * KillSwitch.init.latency_spike_multiplier) := by
    show ¬ ((150 : ℚ) ≥ 1000 * 5)
    norm_num
  exact ⟨h1, h2,
    (C3_killswitch_not_wired.2.1 KillSwitch.init
      ⟨"1%", 0.01, 300, 0.003, 50, 150, 0.997, 0⟩ 1000 h1 h2).1 (by decide)⟩

/-! ## Support lemmas: risk scoring (C7) -/

theorem tier_risk_bounds (s : Service) :
    0 ≤ calculate_tier_risk s ∧ calculate_tier_risk s ≤ 1 := by
  unfold calculate_tier_risk
  cases s.tier <;> norm_num

theorem health_risk_bounds (s : Service)
    (h1 : 0 ≤ s.error_budget_remaining) (h2 : s.error_budget_remaining ≤ 1)
    (h3 : 0 ≤ s.recent_failure_rate) (h4 : s.recent_failure_rate ≤ 1)
    (h5 : 0 ≤ s.availability_99d) (h6 : s.availability_99d ≤ 1) :
    0 ≤ calculate_health_risk s ∧ calculate_health_risk s ≤ 1 := by
  unfold calculate_health_risk Service.health_score
  have hle : (s.error_budget_remaining + (1 - s.recent_failure_rate) +
      s.availability_99d) / 3 ≤ 1 := by
    rw [div_le_one (by norm_num : (0 : ℚ) < 3)]
    linarith
  have hge : 0 ≤ (s.error_budget_remaining + (1 - s.recent_failure_rate) +
      s.availability_99d) / 3 := by
    apply div_nonneg _ (by norm_num : (0 : ℚ) ≤ 3)
    linarith
  constructor <;> linarith

theorem historical_risk_bounds (c : DeploymentContext)
    (hf : 0 ≤ c.similar_past_failures) (hs : 0 ≤ c.similar_past_successes) :
    0 ≤ calculate_historical_risk c ∧ calculate_historical_risk c ≤ 1 := by
  simp only [calculate_historical_risk]
  split_ifs with h
  · norm_num
  · refine ⟨le_min ?_ (by norm_num), min_le_right _ _⟩
    have htot : (0 : ℚ) < ((c.similar_past_successes + c.similar_past_failures : ℤ) : ℚ) := by
      have : (0 : ℤ) ≤ c.similar_past_successes + c.similar_past_failures := by omega
      have hne : (c.similar_past_successes + c.similar_past_failures : ℤ) ≠ 0 := h
      have : (0 : ℤ) < c.similar_past_successes + c.similar_past_failures := by omega
      exact_mod_cast this
    have hfq : (0 : ℚ) ≤ (c.similar_past_failures : ℚ) := by exact_mod_cast hf
    positivity

theorem blast_radius_bounds (s : Service) (c : DeploymentContext) :
    0 ≤ calculate_blast_radius s c ∧ calculate_blast_radius s c ≤ 1 := by
  unfold calculate_blast_radius
  refine ⟨le_min ?_ (by norm_num), min_le_right _ _⟩
  split_ifs <;> norm_num

theorem complexity_risk_bounds (c : DeploymentContext) :
    0 ≤ calculate_complexity_risk c ∧ calculate_complexity_risk c ≤ 1 := by
  unfold calculate_complexity_risk
  refine ⟨le_min ?_ (by norm_num), min_le_right _ _⟩
  split_ifs <;> norm_num

theorem timing_risk_bounds (c : DeploymentContext) :
    0 ≤ calculate_timing_risk c ∧ calculate_timing_risk c ≤ 1 := by
  unfold calculate_timing_risk
  refine ⟨le_min ?_ (by norm_num), min_le_right _ _⟩
  split_ifs <;> norm_num

theorem mkRiskScorer_total_one (w : RiskWeights) (a : AutonomyLevel)
    (h : w.total ≠ 0) : (mkRiskScorer w a).weights.total = 1 := by
  simp only [mkRiskScorer]
  split_ifs with h1
  · show w.service_tier / w.total + w.service_health / w.total +
      w.historical_failure_rate / w.total + w.blast_radius / w.total +
      w.change_complexity / w.total + w.timing_risk / w.total = 1
    rw [div_add_div_same, div_add_div_same, div_add_div_same, div_add_div_same,
      div_add_div_same]
    exact div_self h
  · push_neg at h1
    exact h1

theorem mkRiskScorer_weights_nonneg (w : RiskWeights) (a : AutonomyLevel)
    (h1 : 0 ≤ w.service_tier) (h2 : 0 ≤ w.service_health)
    (h3 : 0 ≤ w.historical_failure_rate) (h4 : 0 ≤ w.blast_radius)
    (h5 : 0 ≤ w.change_complexity) (h6 : 0 ≤ w.timing_risk) (ht : w.total ≠ 0) :
    0 ≤ (mkRiskScorer w a).weights.service_tier ∧
    0 ≤ (mkRiskScorer w a).weights.service_health ∧
    0 ≤ (mkRiskScorer w a).weights.historical_failure_rate ∧
    0 ≤ (mkRiskScorer w a).weights.blast_radius ∧
    0 ≤ (mkRiskScorer w a).weights.change_complexity ∧
    0 ≤ (mkRiskScorer w a).weights.timing_risk := by
  have htpos : 0 < w.total := by
    rcases lt_or_eq_of_le (show (0 : ℚ) ≤ w.total by unfold RiskWeights.total; linarith)
      with h | h
    · exact h
    · exact absurd h.symm ht
  simp only [mkRiskScorer]
  split_ifs
  · exact ⟨div_nonneg h1 htpos.le, div_nonneg h2 htpos.le, div_nonneg h3 htpos.le,
      div_nonneg h4 htpos.le, div_nonneg h5 htpos.le, div_nonneg h6 htpos.le⟩
  · exact ⟨h1, h2, h3, h4, h5, h6⟩

theorem weighted_sum_bounds (f1 f2 f3 f4 f5 f6 w1 w2 w3 w4 w5 w6 : ℚ)
    (hf1 : 0 ≤ f1 ∧ f1 ≤ 1) (hf2 : 0 ≤ f2 ∧ f2 ≤ 1) (hf3 : 0 ≤ f3 ∧ f3 ≤ 1)
    (hf4 : 0 ≤ f4 ∧ f4 ≤ 1) (hf5 : 0 ≤ f5 ∧ f5 ≤ 1) (hf6 : 0 ≤ f6 ∧ f6 ≤ 1)
    (hw1 : 0 ≤ w1) (hw2 : 0 ≤ w2) (hw3 : 0 ≤ w3) (hw4 : 0 ≤ w4) (hw5 : 0 ≤ w5)
    (hw6 : 0 ≤ w6) (hsum : w1 + w2 + w3 + w4 + w5 + w6 = 1) :
    0 ≤ f1 * w1 + f2 * w2 + f3 * w3 + f4 * w4 + f5 * w5 + f6 * w6 ∧
    f1 * w1 + f2 * w2 + f3 * w3 + f4 * w4 + f5 * w5 + f6 * w6 ≤ 1 := by
  have l1 : 0 ≤ f1 * w1 := mul_nonneg hf1.1 hw1
  have l2 : 0 ≤ f2 * w2 := mul_nonneg hf2.1 hw2
  have l3 : 0 ≤ f3 * w3 := mul_nonneg hf3.1 hw3
  have l4 : 0 ≤ f4 * w4 := mul_nonneg hf4.1 hw4
  have l5 : 0 ≤ f5 * w5 := mul_nonneg hf5.1 hw5
  have l6 : 0 ≤ f6 * w6 := mul_nonneg hf6.1 hw6
  have u1 : f1 * w1 ≤ w1 := mul_le_of_le_one_left hw1 hf1.2
  have u2 : f2 * w2 ≤ w2 := mul_le_of_le_one_left hw2 hf2.2
  have u3 : f3 * w3 ≤ w3 := mul_le_of_le_one_left hw3 hf3.2
  have u4 : f4 * w4 ≤ w4 := mul_le_of_le_one_left hw4 hf4.2
  have u5 : f5 * w5 ≤ w5 := mul_le_of_le_one_left hw5 hf5.2
  have u6 : f6 * w6 ≤ w6 := mul_le_of_le_one_left hw6 hf6.2
  constructor <;> linarith

/-! ## Claim theorems: risk scoring (C7) -/

/-- C7 counterexample: the constructor accepts a weight configuration with a
negative component (total 1, so no normalization and no error), and the
resulting risk score 1.8 lies outside [0,1]. -/
theorem C7_counterexample :
    ((⟨2, -1, 0, 0, 0, 0⟩ : RiskWeights).total ≠ 0) ∧
    ((calculate_risk_score (mkRiskScorer ⟨2, -1, 0, 0, 0, 0⟩ .governed)
        ⟨"s", "svc", .critical, [], 1, 0, 1⟩
        ⟨0, 0, false, false, false, 10, 1, 0, 1, 0.9⟩ "d").risk_score = 1.8) ∧
    ¬ ((calculate_risk_score (mkRiskScorer ⟨2, -1, 0, 0, 0, 0⟩ .governed)
        ⟨"s", "svc", .critical, [], 1, 0, 1⟩
        ⟨0, 0, false, false, false, 10, 1, 0, 1, 0.9⟩ "d").risk_score ≤ 1) := by
  have hw : mkRiskScorer ⟨2, -1, 0, 0, 0, 0⟩ .governed =
      ⟨⟨2, -1, 0, 0, 0, 0⟩, .governed⟩ := by
    simp only [mkRiskScorer]
    rw [if_neg]
    show ¬ ((⟨2, -1, 0, 0, 0, 0⟩ : RiskWeights).total ≠ 1)
    simp only [RiskWeights.total]
    norm_num
  have hscore : (calculate_risk_score (mkRiskScorer ⟨2, -1, 0, 0, 0, 0⟩ .governed)
      ⟨"s", "svc", .critical, [], 1, 0, 1⟩
      ⟨0, 0, false, false, false, 10, 1, 0, 1, 0.9⟩ "d").risk_score = 1.8 := by
    rw [hw]
    simp only [calculate_risk_score]
    simp only [calculate_tier_risk, calculate_health_risk, Service.health_score,
      calculate_historical_risk, calculate_blast_radius, calculate_complexity_risk,
      calculate_timing_risk]
    norm_num
  refine ⟨by simp only [RiskWeights.total]; norm_num, hscore, ?_⟩
  rw [hscore]
  norm_num

/-- C7 amended: for weight configurations with nonnegative components and
nonzero total, the constructor-normalized weights sum exactly to 1; the risk
level stored by calculate_risk_score is the threshold mapping of its score;
that mapping is monotone in the score; and for services whose budget,
failure rate and availability lie in [0,1] and nonnegative history counts,
every computed risk score lies in [0,1]. -/
theorem C7_weights_normalized_and_score_bounded :
    (∀ (w : RiskWeights) (a : AutonomyLevel), w.total ≠ 0 →
      (mkRiskScorer w a).weights.total = 1) ∧
    (∀ (rs : RiskScorer) (svc : Service) (ctx : DeploymentContext) (i : String),
      (calculate_risk_score rs svc ctx i).risk_level =
        riskLevelFor (calculate_risk_score rs svc ctx i).risk_score) ∧
    (∀ s1 s2 : ℚ, s1 ≤ s2 → (riskLevelFor s1).rank ≤ (riskLevelFor s2).rank) ∧
    (∀ (w : RiskWeights) (a : AutonomyLevel) (svc : Service)
       (ctx : DeploymentContext) (i : String),
      0 ≤ w.service_tier → 0 ≤ w.service_health → 0 ≤ w.historical_failure_rate →
      0 ≤ w.blast_radius → 0 ≤ w.change_complexity → 0 ≤ w.timing_risk →
      w.total ≠ 0 →
      0 ≤ svc.error_budget_remaining → svc.error_budget_remaining ≤ 1 →
      0 ≤ svc.recent_failure_rate → svc.recent_failure_rate ≤ 1 →
      0 ≤ svc.availability_99d → svc.availability_99d ≤ 1 →
      0 ≤ ctx.similar_past_failures → 0 ≤ ctx.similar_past_successes →
      0 ≤ (calculate_risk_score (mkRiskScorer w a) svc ctx i).risk_score ∧
      (calculate_risk_score (mkRiskScorer w a) svc ctx i).risk_score ≤ 1) := by
  refine ⟨mkRiskScorer_total_one, fun rs svc ctx i => rfl, ?_, ?_⟩
  · intro s1 s2 h
    unfold riskLevelFor
    split_ifs <;> simp [RiskLevel.rank] <;> linarith
  · intro w a svc ctx i hw1 hw2 hw3 hw4 hw5 hw6 ht hb1 hb2 hb3 hb4 hb5 hb6 hc1 hc2
    obtain ⟨n1, n2, n3, n4, n5, n6⟩ := mkRiskScorer_weights_nonneg w a hw1 hw2 hw3
      hw4 hw5 hw6 ht
    have hsum : (mkRiskScorer w a).weights.service_tier +
        (mkRiskScorer w a).weights.service_health +
        (mkRiskScorer w a).weights.historical_failure_rate +
        (mkRiskScorer w a).weights.blast_radius +
        (mkRiskScorer w a).weights.change_complexity +
        (mkRiskScorer w a).weights.timing_risk = 1 :=
      mkRiskScorer_total_one w a ht
    have hb := weighted_sum_bounds (calculate_tier_risk svc)
      (calculate_health_risk svc) (calculate_historical_risk ctx)
      (calculate_blast_radius svc ctx) (calculate_complexity_risk ctx)
      (calculate_timing_risk ctx)
      (mkRiskScorer w a).weights.service_tier
      (mkRiskScorer w a).weights.service_health
      (mkRiskScorer w a).weights.historical_failure_rate
      (mkRiskScorer w a).weights.blast_radius
      (mkRiskScorer w a).weights.change_complexity
      (mkRiskScorer w a).weights.timing_risk
      (tier_risk_bounds svc) (health_risk_bounds svc hb1 hb2 hb3 hb4 hb5 hb6)
      (historical_risk_bounds ctx hc1 hc2) (blast_radius_bounds svc ctx)
      (complexity_risk_bounds ctx) (timing_risk_bounds ctx)
      n1 n2 n3 n4 n5 n6 hsum
    exact hb

/-- Witness for the amended C7 at the default weights and a concrete
in-range service and context. -/
theorem C7_bounds_witness :
    ((defaultRiskWeights.total ≠ 0) ∧
     (0 : ℚ) ≤ defaultRiskWeights.service_tier ∧
     (0 : ℚ) ≤ ((⟨"s", "svc", .medium, [], 0.8, 0.02, 0.999⟩ :
        Service)).error_budget_remaining) ∧
    (mkRiskScorer defaultRiskWeights .governed).weights.total = 1 ∧
    (0 ≤ (calculate_risk_score (mkRiskScorer defaultRiskWeights .governed)
        ⟨"s", "svc", .medium, [], 0.8, 0.02, 0.999⟩
        ⟨100, 5, false, false, false, 10, 1, 0, 10, 0.9⟩ "d").risk_score ∧
     (calculate_risk_score (mkRiskScorer defaultRiskWeights .governed)
        ⟨"s", "svc", .medium, [], 0.8, 0.02, 0.999⟩
        ⟨100, 5, false, false, false, 10, 1, 0, 10, 0.9⟩ "d").risk_score ≤ 1) := by
  have htot : defaultRiskWeights.total ≠ 0 := by
    simp only [defaultRiskWeights, RiskWeights.total]
    norm_num
  refine ⟨⟨htot, by norm_num [defaultRiskWeights], by norm_num⟩,
    C7_weights_normalized_and_score_bounded.1 defaultRiskWeights .governed htot,
    C7_weights_normalized_and_score_bounded.2.2.2 defaultRiskWeights .governed
      ⟨"s", "svc", .medium, [], 0.8, 0.02, 0.999⟩
      ⟨100, 5, false, false, false, 10, 1, 0, 10, 0.9⟩ "d"
      (by norm_num [defaultRiskWeights]) (by norm_num [defaultRiskWeights])
      (by norm_num [defaultRiskWeights]) (by norm_num [defaultRiskWeights])
      (by norm_num [defaultRiskWeights]) (by norm_num [defaultRiskWeights])
      htot (by norm_num) (by norm_num) (by norm_num) (by norm_num) (by norm_num)
      (by norm_num) (by norm_num) (by norm_num)⟩

/-! ## Claim theorems: study metrics median (C9) -/

/-- C9: the value exposed as median cycle time is the arithmetic mean, not
the statistical median. Recording three deployments with cycle times 1, 1
and 10 minutes through _record_result yields median_cycle_time = 4, while
the statistical median of [1, 1, 10] is 1. -/
theorem C9_median_is_actually_mean :
    (record_result ⟨DEFAULT_POLICIES, []⟩
      (record_result ⟨DEFAULT_POLICIES, []⟩
        (record_result ⟨DEFAULT_POLICIES, []⟩ StudyResults.init
          ⟨"d", "s", "v", .completed, none, none, [], none, []⟩ 1 true false false false)
        ⟨"d", "s", "v", .completed, none, none, [], none, []⟩ 1 true false false false)
      ⟨"d", "s", "v", .completed, none, none, [], none, []⟩ 10 true false false false
      ).median_cycle_time = 4 ∧
    specStatisticalMedian [1, 1, 10] = 1 ∧
    (record_result ⟨DEFAULT_POLICIES, []⟩
      (record_result ⟨DEFAULT_POLICIES, []⟩
        (record_result ⟨DEFAULT_POLICIES, []⟩ StudyResults.init
          ⟨"d", "s", "v", .completed, none, none, [], none, []⟩ 1 true false false false)
        ⟨"d", "s", "v", .completed, none, none, [], none, []⟩ 1 true false false false)
      ⟨"d", "s", "v", .completed, none, none, [], none, []⟩ 10 true false false false
      ).median_cycle_time ≠ specStatisticalMedian [1, 1, 10] := by
  have hsafe : check_safety_violation ⟨DEFAULT_POLICIES, []⟩
      ⟨"d", "s", "v", .completed, none, none, [], none, []⟩ "deploy" (jobj []) = false := by
    simp [check_safety_violation]
  have hrec : ∀ (r : StudyResults) (dur : ℚ),
      record_result ⟨DEFAULT_POLICIES, []⟩ r
        ⟨"d", "s", "v", .completed, none, none, [], none, []⟩ dur true false false false =
      { r with
        total_deployments := r.total_deployments + 1
        total_cycle_time_minutes := r.total_cycle_time_minutes + dur
        successful_deployments := r.successful_deployments + 1 } := by
    intro r dur
    simp [record_result, hsafe]
  rw [hrec, hrec, hrec]
  have hmed : specStatisticalMedian [1, 1, 10] = 1 := by
    have hsort : sortAsc [1, 1, 10] = [1, 1, 10] := by
      simp only [sortAsc, List.foldr, insertAsc]
      norm_num
    simp only [specStatisticalMedian, hsort]
    norm_num
  refine ⟨?_, hmed, ?_⟩
  · simp only [StudyResults.init, StudyResults.median_cycle_time]
    norm_num
  · rw [hmed]
    simp only [StudyResults.init, StudyResults.median_cycle_time]
    norm_num

/-- The implementation-side fact: across any sequence of recorded
deployments, median_cycle_time is total cycle time divided by the number of
deployments (the arithmetic mean of the recorded durations). -/
theorem median_cycle_time_is_mean (r : StudyResults) :
    r.median_cycle_time =
      (if r.total_deployments = 0 then 0
       else r.total_cycle_time_minutes / r.total_deployments) := rfl

/-! ## Support lemmas: audit-trail integrity (C2) -/

theorem string_append_cancel_right {s t u : String} (h : s ++ u = t ++ u) : s = t := by
  have h2 : s.data ++ u.data = t.data ++ u.data := by
    rw [← String.data_append, ← String.data_append, h]
  exact String.ext (List.append_cancel_right h2)

theorem string_append_cancel_left {s t u : String} (h : u ++ s = u ++ t) : s = t := by
  have h2 : u.data ++ s.data = u.data ++ t.data := by
    rw [← String.data_append, ← String.data_append, h]
  exact String.ext (List.append_cancel_left h2)

/-! ## Claim theorems: audit-trail integrity (C2) -/

/-- C2 counterexample: the hash covers only timestamp, deployment id, event
type, action and details — mutating the `actor` field of a logged entry is
NOT detectable: the recomputed hash still equals the stored hash, and the
compliance report still reports audit_integrity = true for the tampered
entry. -/
theorem C2_counterexample :
    (({ mkAuditEntry "2025-01-01T00:00:00" "dep-1" "deployment_started" "ai_agent"
          "initialize" (jobj [("k", Json.str "v")]) none none [] [] with
        actor := "human_reviewer" } : AuditEntry).actor ≠
      (mkAuditEntry "2025-01-01T00:00:00" "dep-1" "deployment_started" "ai_agent"
        "initialize" (jobj [("k", Json.str "v")]) none none [] []).actor) ∧
    (({ mkAuditEntry "2025-01-01T00:00:00" "dep-1" "deployment_started" "ai_agent"
          "initialize" (jobj [("k", Json.str "v")]) none none [] [] with
        actor := "human_reviewer" } : AuditEntry).recomputeHash =
      ({ mkAuditEntry "2025-01-01T00:00:00" "dep-1" "deployment_started" "ai_agent"
          "initialize" (jobj [("k", Json.str "v")]) none none [] [] with
        actor := "human_reviewer" } : AuditEntry).hash) ∧
    ((generate_compliance_report
        ⟨DEFAULT_POLICIES,
         [{ mkAuditEntry "2025-01-01T00:00:00" "dep-1" "deployment_started" "ai_agent"
              "initialize" (jobj [("k", Json.str "v")]) none none [] [] with
            actor := "human_reviewer" }]⟩
        ⟨"dep-1", "s", "v", .completed, none, none, [], none, []⟩).audit_integrity
      = true) := by
  refine ⟨?_, ?_, ?_⟩
  · simp only [mkAuditEntry]
    decide
  · simp only [AuditEntry.recomputeHash, mkAuditEntry]
  · simp [generate_compliance_report, deploymentEvents, mkAuditEntry,
      AuditEntry.recomputeHash]

/-- C2 amended: for every entry created through logAuditEvent the hash
recomputed from the stored hash-covered fields equals the stored hash, and
generateComplianceReport's audit_integrity is exactly the conjunction of
this per-entry check; mutating any single hash-covered field (timestamp,
deployment id, event type, action) changes the hashed content, while a
mutation of the uncovered actor field leaves the recomputed hash unchanged
(undetectable). -/
theorem C2_hash_roundtrip_and_coverage :
    (∀ (g : GovernanceEngine) (ts : String) (d : Deployment)
       (event_type action : String) (details : Json) (actor : String)
       (ra : Option RiskAssessment) (pe pv : List String),
      ((log_audit_event g ts d event_type action details actor ra pe pv).2.2).recomputeHash
        = ((log_audit_event g ts d event_type action details actor ra pe pv).2.2).hash) ∧
    (∀ (g : GovernanceEngine) (d : Deployment),
      (generate_compliance_report g d).audit_integrity =
        (deploymentEvents g d).all (fun e => e.hash == e.recomputeHash)) ∧
    (∀ (e : AuditEntry) (ts' : String), ts' ≠ e.timestamp →
      hashContent ts' e.deployment_id e.event_type e.action e.details ≠
        hashContent e.timestamp e.deployment_id e.event_type e.action e.details) ∧
    (∀ (e : AuditEntry) (id' : String), id' ≠ e.deployment_id →
      hashContent e.timestamp id' e.event_type e.action e.details ≠
        hashContent e.timestamp e.deployment_id e.event_type e.action e.details) ∧
    (∀ (e : AuditEntry) (et' : String), et' ≠ e.event_type →
      hashContent e.timestamp e.deployment_id et' e.action e.details ≠
        hashContent e.timestamp e.deployment_id e.event_type e.action e.details) ∧
    (∀ (e : AuditEntry) (ac' : String), ac' ≠ e.action →
      hashContent e.timestamp e.deployment_id e.event_type ac' e.details ≠
        hashContent e.timestamp e.deployment_id e.event_type e.action e.details) ∧
    (∀ (e : AuditEntry) (actor' : String),
      ({ e with actor := actor' } : AuditEntry).recomputeHash = e.recomputeHash) := by
  refine ⟨?_, fun g d => rfl, ?_, ?_, ?_, ?_, ?_⟩
  · intro g ts d et ac dt a ra pe pv
    simp only [log_audit_event, AuditEntry.recomputeHash, mkAuditEntry]
  · intro e ts' hne habs
    simp only [hashContent] at habs
    have h1 := string_append_cancel_right habs
    have h2 := string_append_cancel_right h1
    have h3 := string_append_cancel_right h2
    exact hne (string_append_cancel_right h3)
  · intro e id' hne habs
    simp only [hashContent] at habs
    have h1 := string_append_cancel_right habs
    have h2 := string_append_cancel_right h1
    have h3 := string_append_cancel_right h2
    exact hne (string_append_cancel_left h3)
  · intro e et' hne habs
    simp only [hashContent] at habs
    have h1 := string_append_cancel_right habs
    have h2 := string_append_cancel_right h1
    exact hne (string_append_cancel_left h2)
  · intro e ac' hne habs
    simp only [hashContent] at habs
    have h1 := string_append_cancel_right habs
    exact hne (string_append_cancel_left h1)
  · intro e actor'
    simp only [AuditEntry.recomputeHash]

/-- Witness for the amended C2: a concrete timestamp mutation changes the
hashed content of a concrete logged entry. -/
theorem C2_coverage_witness :
    (("t1" : String) ≠ (mkAuditEntry "t0" "dep-1" "evt" "ai_agent" "act" (jobj [])
        none none [] []).timestamp) ∧
    hashContent "t1"
        (mkAuditEntry "t0" "dep-1" "evt" "ai_agent" "act" (jobj [])
          none none [] []).deployment_id
        (mkAuditEntry "t0" "dep-1" "evt" "ai_agent" "act" (jobj [])
          none none [] []).event_type
        (mkAuditEntry "t0" "dep-1" "evt" "ai_agent" "act" (jobj [])
          none none [] []).action
        (mkAuditEntry "t0" "dep-1" "evt" "ai_agent" "act" (jobj [])
          none none [] []).details ≠
      hashContent
        (mkAuditEntry "t0" "dep-1" "evt" "ai_agent" "act" (jobj [])
          none none [] []).timestamp
        (mkAuditEntry "t0" "dep-1" "evt" "ai_agent" "act" (jobj [])
          none none [] []).deployment_id
        (mkAuditEntry "t0" "dep-1" "evt" "ai_agent" "act" (jobj [])
          none none [] []).event_type
        (mkAuditEntry "t0" "dep-1" "evt" "ai_agent" "act" (jobj [])
          none none [] []).action
        (mkAuditEntry "t0" "dep-1" "evt" "ai_agent" "act" (jobj [])
          none none [] []).details := by
  have hne : ("t1" : String) ≠ (mkAuditEntry "t0" "dep-1" "evt" "ai_agent" "act"
      (jobj []) none none [] []).timestamp := by
    simp only [mkAuditEntry]
    decide
  exact ⟨hne, C2_hash_roundtrip_and_coverage.2.2.1
    (mkAuditEntry "t0" "dep-1" "evt" "ai_agent" "act" (jobj []) none none [] [])
    "t1" hne⟩

/-! ## Support lemmas: governance safety check and default policies (C1, C4, C5) -/

theorem check_safety_violation_iff (g : GovernanceEngine) (d : Deployment)
    (a : String) (c : Json) :
    check_safety_violation g d a c = true ↔
      ∃ e ∈ g.audit_log, e.deployment_id = d.id ∧
        ∃ name ∈ e.policies_violated,
          ∃ p, g.policies.find? (fun q => q.name == name) = some p ∧
            p.action = "block" ∧ d.status = .completed := by
  simp only [check_safety_violation, List.any_eq_true, Bool.and_eq_true, beq_iff_eq]
  constructor
  · rintro ⟨e, he, hid, name, hname, hmatch⟩
    refine ⟨e, he, hid, name, hname, ?_⟩
    rcases hfind : g.policies.find? (fun q => q.name == name) with _ | p
    · rw [hfind] at hmatch
      simp at hmatch
    · rw [hfind] at hmatch
      simp only [Bool.and_eq_true, beq_iff_eq] at hmatch
      exact ⟨p, hfind, hmatch.1, hmatch.2⟩
  · rintro ⟨e, he, hid, name, hname, p, hfind, hact, hst⟩
    refine ⟨e, he, hid, name, hname, ?_⟩
    rw [hfind]
    simp [hact, hst]

theorem check_safety_violation_of_ne_completed (g : GovernanceEngine) (d : Deployment)
    (a : String) (c : Json) (h : d.status ≠ .completed) :
    check_safety_violation g d a c = false := by
  rw [← Bool.not_eq_true, check_safety_violation_iff]
  rintro ⟨e, _, _, name, _, p, _, _, hst⟩
  exact h hst

set_option maxHeartbeats 1600000 in
theorem evalDefault_violated_no_block (svc : Service) (ctx : DeploymentContext) (rs : ℚ)
    (hallow : (evaluate_policies DEFAULT_POLICIES svc ctx rs).allowed = true) :
    ∀ name ∈ (evaluate_policies DEFAULT_POLICIES svc ctx rs).policies_violated,
      ∀ p, DEFAULT_POLICIES.find? (fun q => q.name == name) = some p →
        p.action ≠ "block" := by
  have hsub : ∀ name ∈ (evaluate_policies DEFAULT_POLICIES svc ctx rs).policies_violated,
      name = "critical_service_human_review" ∨ name = "db_migration_review" ∨
      name = "large_change_caution" := by
    intro name hname
    rcases hb1 : evaluateCondition
      "service.tier == ServiceTier.CRITICAL and risk_score > 0.5" svc ctx rs <;>
    rcases hb2 : evaluateCondition
      "context.day_of_week == 4 and context.time_of_day_hour >= 16" svc ctx rs <;>
    rcases hb3 : evaluateCondition
      "service.error_budget_remaining <= 0" svc ctx rs <;>
    rcases hb4 : evaluateCondition
      "context.has_db_migration and service.tier.value <= 2" svc ctx rs <;>
    rcases hb5 : evaluateCondition
      "context.change_size_lines > 1000" svc ctx rs <;>
    simp_all [evaluate_policies, DEFAULT_POLICIES, evalPolicyStep, PolicyResult.init] <;>
    tauto
  intro name hmem p hp
  rcases hsub name hmem with rfl | rfl | rfl
  · rw [show List.find? (fun q => q.name == "critical_service_human_review")
        DEFAULT_POLICIES = some ⟨"critical_service_human_review",
          "Critical services require human review for high-risk changes",
          "service.tier == ServiceTier.CRITICAL and risk_score > 0.5",
          "require_approval", "high"⟩ from by decide] at hp
    rw [← Option.some.inj hp]
    decide
  · rw [show List.find? (fun q => q.name == "db_migration_review")
        DEFAULT_POLICIES = some ⟨"db_migration_review",
          "Database migrations require human review",
          "context.has_db_migration and service.tier.value <= 2",
          "require_approval", "high"⟩ from by decide] at hp
    rw [← Option.some.inj hp]
    decide
  · rw [show List.find? (fun q => q.name == "large_change_caution")
        DEFAULT_POLICIES = some ⟨"large_change_caution",
          "Large changes require extra canary stages",
          "context.change_size_lines > 1000", "warn", "medium"⟩ from by decide] at hp
    rw [← Option.some.inj hp]
    decide

set_option maxHeartbeats 1600000 in
theorem evalDefault_scenarioB (svc : Service) (ctx : DeploymentContext) (rs : ℚ)
    (htier : svc.tier = .critical) (hrs : 0.5 < rs)
    (hfri : ¬ (ctx.day_of_week = 4 ∧ 16 ≤ ctx.time_of_day_hour))
    (hbud : 0 < svc.error_budget_remaining) :
    (evaluate_policies DEFAULT_POLICIES svc ctx rs).allowed = true ∧
    (evaluate_policies DEFAULT_POLICIES svc ctx rs).requires_approval = true := by
  have hle : ¬ rs ≤ 0.5 := not_le.mpr hrs
  have hble : ¬ svc.error_budget_remaining ≤ 0 := not_le.mpr hbud
  have hb1 : evaluateCondition
      "service.tier == ServiceTier.CRITICAL and risk_score > 0.5" svc ctx rs = true := by
    simp [evaluateCondition, htier, hle,
      show strContains "service.tier == ServiceTier.CRITICAL and risk_score > 0.5"
        "service.tier == ServiceTier.CRITICAL" = true from by decide,
      show strContains "service.tier == ServiceTier.CRITICAL and risk_score > 0.5"
        "risk_score > 0.5" = true from by decide]
  have hb2 : evaluateCondition
      "context.day_of_week == 4 and context.time_of_day_hour >= 16" svc ctx rs = false := by
    simp [evaluateCondition, hfri,
      show strContains "context.day_of_week == 4 and context.time_of_day_hour >= 16"
        "service.tier == ServiceTier.CRITICAL" = false from by decide,
      show strContains "context.day_of_week == 4 and context.time_of_day_hour >= 16"
        "day_of_week == 4" = true from by decide,
      show strContains "context.day_of_week == 4 and context.time_of_day_hour >= 16"
        "time_of_day_hour >= 16" = true from by decide]
  have hb3 : evaluateCondition
      "service.error_budget_remaining <= 0" svc ctx rs = false := by
    simp [evaluateCondition, hble,
      show strContains "service.error_budget_remaining <= 0"
        "service.tier == ServiceTier.CRITICAL" = false from by decide,
      show strContains "service.error_budget_remaining <= 0"
        "day_of_week == 4" = false from by decide,
      show strContains "service.error_budget_remaining <= 0"
        "error_budget_remaining <= 0" = true from by decide]
  rcases hb4 : evaluateCondition
    "context.has_db_migration and service.tier.value <= 2" svc ctx rs <;>
  rcases hb5 : evaluateCondition
    "context.change_size_lines > 1000" svc ctx rs <;>
  simp_all [evaluate_policies, DEFAULT_POLICIES, evalPolicyStep, PolicyResult.init]

/-! ## Support lemmas: the deploy pipeline (C1, C4, C5) -/

theorem deployCanaryPhase_spec (g : GovernanceEngine) (cs : RolloutState)
    (d : Deployment) (ra : RiskAssessment) (sample : MetricsOracle) (fs : Option ℕ)
    (clock : ℕ → String) (k : ℕ) (dur : ℚ) :
    (deployCanaryPhase g cs d ra sample fs clock k dur).1.policies = g.policies ∧
    (deployCanaryPhase g cs d ra sample fs clock k dur).2.2.id = d.id ∧
    ((deployCanaryPhase g cs d ra sample fs clock k dur).2.2.status = .rolled_back ∨
     (deployCanaryPhase g cs d ra sample fs clock k dur).2.2.status = .completed) ∧
    (∀ e ∈ (deployCanaryPhase g cs d ra sample fs clock k dur).1.audit_log,
      e ∈ g.audit_log ∨ (e.deployment_id = d.id ∧ e.policies_violated = [])) := by
  by_cases hrb : (execute_rollout defaultSLOConfig cs.reset ra sample fs).2.rollback_triggered
    = true
  · refine ⟨?_, ?_, ?_, ?_⟩
    · simp only [deployCanaryPhase, log_audit_event, hrb, if_true]
    · simp only [deployCanaryPhase, log_audit_event, hrb, if_true]
    · left
      simp only [deployCanaryPhase, log_audit_event, hrb, if_true]
    · intro e he
      simp only [deployCanaryPhase, log_audit_event, hrb, if_true] at he
      simp only [List.append_assoc, List.mem_append, List.mem_singleton,
        List.mem_cons, List.not_mem_nil, or_false] at he
      rcases he with h | rfl | rfl
      · exact Or.inl h
      · exact Or.inr ⟨rfl, rfl⟩
      · exact Or.inr ⟨rfl, rfl⟩
  · refine ⟨?_, ?_, ?_, ?_⟩
    · simp only [deployCanaryPhase, log_audit_event, if_neg hrb]
    · simp only [deployCanaryPhase, log_audit_event, if_neg hrb]
    · right
      simp only [deployCanaryPhase, log_audit_event, if_neg hrb]
    · intro e he
      simp only [deployCanaryPhase, log_audit_event, if_neg hrb] at he
      simp only [List.append_assoc, List.mem_append, List.mem_singleton,
        List.mem_cons, List.not_mem_nil, or_false] at he
      rcases he with h | rfl | rfl
      · exact Or.inl h
      · exact Or.inr ⟨rfl, rfl⟩
      · exact Or.inr ⟨rfl, rfl⟩

theorem dcp_policies (g : GovernanceEngine) (cs : RolloutState) (d : Deployment)
    (ra : RiskAssessment) (sample : MetricsOracle) (fs : Option ℕ) (clock : ℕ → String)
    (k : ℕ) (dur : ℚ) :
    (deployCanaryPhase g cs d ra sample fs clock k dur).1.policies = g.policies :=
  (deployCanaryPhase_spec g cs d ra sample fs clock k dur).1

theorem dcp_id (g : GovernanceEngine) (cs : RolloutState) (d : Deployment)
    (ra : RiskAssessment) (sample : MetricsOracle) (fs : Option ℕ) (clock : ℕ → String)
    (k : ℕ) (dur : ℚ) :
    (deployCanaryPhase g cs d ra sample fs clock k dur).2.2.id = d.id :=
  (deployCanaryPhase_spec g cs d ra sample fs clock k dur).2.1

theorem dcp_status4 (g : GovernanceEngine) (cs : RolloutState) (d : Deployment)
    (ra : RiskAssessment) (sample : MetricsOracle) (fs : Option ℕ) (clock : ℕ → String)
    (k : ℕ) (dur : ℚ) :
    (deployCanaryPhase g cs d ra sample fs clock k dur).2.2.status = .completed ∨
    (deployCanaryPhase g cs d ra sample fs clock k dur).2.2.status = .rolled_back ∨
    (deployCanaryPhase g cs d ra sample fs clock k dur).2.2.status = .failed ∨
    (deployCanaryPhase g cs d ra sample fs clock k dur).2.2.status = .pending := by
  rcases (deployCanaryPhase_spec g cs d ra sample fs clock k dur).2.2.1 with h | h
  · exact Or.inr (Or.inl h)
  · exact Or.inl h

theorem dcp_ne_pending (g : GovernanceEngine) (cs : RolloutState) (d : Deployment)
    (ra : RiskAssessment) (sample : MetricsOracle) (fs : Option ℕ) (clock : ℕ → String)
    (k : ℕ) (dur : ℚ) :
    (deployCanaryPhase g cs d ra sample fs clock k dur).2.2.status = .pending → False := by
  intro h
  rcases (deployCanaryPhase_spec g cs d ra sample fs clock k dur).2.2.1 with h' | h' <;>
    rw [h] at h' <;> cases h'

theorem dcp_mem (g : GovernanceEngine) (cs : RolloutState) (d : Deployment)
    (ra : RiskAssessment) (sample : MetricsOracle) (fs : Option ℕ) (clock : ℕ → String)
    (k : ℕ) (dur : ℚ) :
    ∀ e ∈ (deployCanaryPhase g cs d ra sample fs clock k dur).1.audit_log,
      e ∈ g.audit_log ∨ (e.deployment_id = d.id ∧ e.policies_violated = []) :=
  (deployCanaryPhase_spec g cs d ra sample fs clock k dur).2.2.2

theorem deploy_spec (cfg : PipelineConfig) (g0 : GovernanceEngine) (cs : RolloutState)
    (svc : Service) (ctx0 : DeploymentContext) (version dep_id : String)
    (rag : RagContext) (clock : ℕ → String) (sample : MetricsOracle) (fs : Option ℕ)
    (dur : ℚ) :
    (deploy cfg g0 cs svc ctx0 version dep_id rag clock sample fs dur).2.2.id = dep_id ∧
    (deploy cfg g0 cs svc ctx0 version dep_id rag clock sample fs dur).1.policies =
      g0.policies ∧
    ((deploy cfg g0 cs svc ctx0 version dep_id rag clock sample fs dur).2.2.status =
        .completed ∨
     (deploy cfg g0 cs svc ctx0 version dep_id rag clock sample fs dur).2.2.status =
        .rolled_back ∨
     (deploy cfg g0 cs svc ctx0 version dep_id rag clock sample fs dur).2.2.status =
        .failed ∨
     (deploy cfg g0 cs svc ctx0 version dep_id rag clock sample fs dur).2.2.status =
        .pending) ∧
    ((deploy cfg g0 cs svc ctx0 version dep_id rag clock sample fs dur).2.2.status =
        .completed →
      (evaluate_policies g0.policies svc (applyGatherContext rag ctx0)
        (calculate_risk_score (mkRiskScorer defaultRiskWeights cfg.autonomy_level) svc
          (applyGatherContext rag ctx0) dep_id).risk_score).allowed = true) ∧
    ((deploy cfg g0 cs svc ctx0 version dep_id rag clock sample fs dur).2.2.status =
        .pending →
      cfg.simulate_human_approval = false ∧
      (evaluate_policies g0.policies svc (applyGatherContext rag ctx0)
        (calculate_risk_score (mkRiskScorer defaultRiskWeights cfg.autonomy_level) svc
          (applyGatherContext rag ctx0) dep_id).risk_score).requires_approval = true ∧
      (evaluate_policies g0.policies svc (applyGatherContext rag ctx0)
        (calculate_risk_score (mkRiskScorer defaultRiskWeights cfg.autonomy_level) svc
          (applyGatherContext rag ctx0) dep_id).risk_score).allowed = true ∧
      (check_error_budget svc).1 = true) ∧
    (∀ e ∈ (deploy cfg g0 cs svc ctx0 version dep_id rag clock sample fs
        dur).1.audit_log,
      e ∈ g0.audit_log ∨ (e.deployment_id = dep_id ∧
        (e.policies_violated = [] ∨
         e.policies_violated = (evaluate_policies g0.policies svc
           (applyGatherContext rag ctx0)
           (calculate_risk_score (mkRiskScorer defaultRiskWeights cfg.autonomy_level) svc
             (applyGatherContext rag ctx0) dep_id).risk_score).policies_violated))) := by
  rcases hcb : check_error_budget svc with ⟨ok, reason⟩
  cases ok with
  | false =>
    refine ⟨?_, ?_, ?_, ?_, ?_, ?_⟩
    · simp only [deploy, log_audit_event, hcb, Bool.not_false, if_true]
    · simp only [deploy, log_audit_event, hcb, Bool.not_false, if_true]
    · right; right; left
      simp only [deploy, log_audit_event, hcb, Bool.not_false, if_true]
    · intro h
      simp only [deploy, log_audit_event, hcb, Bool.not_false, if_true] at h
      exact absurd h (by decide)
    · intro h
      simp only [deploy, log_audit_event, hcb, Bool.not_false, if_true] at h
      exact absurd h (by decide)
    · intro e he
      simp only [deploy, log_audit_event, hcb, Bool.not_false, if_true] at he
      simp only [List.append_assoc, List.mem_append, List.mem_singleton,
        List.mem_cons, List.not_mem_nil, or_false] at he
      rcases he with h | rfl | rfl | rfl | rfl
      · exact Or.inl h
      · exact Or.inr ⟨rfl, Or.inl rfl⟩
      · exact Or.inr ⟨rfl, Or.inl rfl⟩
      · exact Or.inr ⟨rfl, Or.inl rfl⟩
      · exact Or.inr ⟨rfl, Or.inl rfl⟩
  | true =>
    by_cases hall : (evaluate_policies g0.policies svc (applyGatherContext rag ctx0)
        (calculate_risk_score (mkRiskScorer defaultRiskWeights cfg.autonomy_level) svc
          (applyGatherContext rag ctx0) dep_id).risk_score).allowed = true
    · by_cases happ : (evaluate_policies g0.policies svc (applyGatherContext rag ctx0)
          (calculate_risk_score (mkRiskScorer defaultRiskWeights cfg.autonomy_level) svc
            (applyGatherContext rag ctx0) dep_id).risk_score).requires_approval = true
      · cases hsim : cfg.simulate_human_approval with
        | true =>
          refine ⟨?_, ?_, ?_, fun _ => hall, ?_, ?_⟩
          · simp only [deploy, log_audit_event, hcb, Bool.not_true, Bool.false_eq_true,
              if_false, hall, happ, hsim, eq_self_iff_true, if_true]
            rw [dcp_id]
          · simp only [deploy, log_audit_event, hcb, Bool.not_true, Bool.false_eq_true,
              if_false, hall, happ, hsim, eq_self_iff_true, if_true]
            rw [dcp_policies]
          · simp only [deploy, log_audit_event, hcb, Bool.not_true, Bool.false_eq_true,
              if_false, hall, happ, hsim, eq_self_iff_true, if_true]
            exact dcp_status4 _ _ _ _ _ _ _ _ _
          · intro h
            simp only [deploy, log_audit_event, hcb, Bool.not_true, Bool.false_eq_true,
              if_false, hall, happ, hsim, eq_self_iff_true, if_true] at h
            exact (dcp_ne_pending _ _ _ _ _ _ _ _ _ h).elim
          · intro e he
            simp only [deploy, log_audit_event, hcb, Bool.not_true, Bool.false_eq_true,
              if_false, hall, happ, hsim, eq_self_iff_true, if_true] at he
            rcases dcp_mem _ _ _ _ _ _ _ _ _ e he with h | h
            · simp only [List.append_assoc, List.mem_append, List.mem_singleton,
                List.mem_cons, List.not_mem_nil, or_false] at h
              rcases h with h | rfl | rfl | rfl | rfl | rfl
              · exact Or.inl h
              · exact Or.inr ⟨rfl, Or.inl rfl⟩
              · exact Or.inr ⟨rfl, Or.inl rfl⟩
              · exact Or.inr ⟨rfl, Or.inl rfl⟩
              · exact Or.inr ⟨rfl, Or.inr rfl⟩
              · exact Or.inr ⟨rfl, Or.inl rfl⟩
            · exact Or.inr ⟨h.1, Or.inl h.2⟩
        | false =>
          refine ⟨?_, ?_, ?_, ?_, ?_, ?_⟩
          · simp only [deploy, log_audit_event, hcb, Bool.not_true, Bool.false_eq_true,
              if_false, hall, happ, hsim, eq_self_iff_true, if_true]
          · simp only [deploy, log_audit_event, hcb, Bool.not_true, Bool.false_eq_true,
              if_false, hall, happ, hsim, eq_self_iff_true, if_true]
          · right; right; right
            simp only [deploy, log_audit_event, hcb, Bool.not_true, Bool.false_eq_true,
              if_false, hall, happ, hsim, eq_self_iff_true, if_true]
          · intro h
            simp only [deploy, log_audit_event, hcb, Bool.not_true, Bool.false_eq_true,
              if_false, hall, happ, hsim, eq_self_iff_true, if_true] at h
            exact absurd h (by decide)
          · exact fun _ => ⟨rfl, happ, hall, rfl⟩
          · intro e he
            simp only [deploy, log_audit_event, hcb, Bool.not_true, Bool.false_eq_true,
              if_false, hall, happ, hsim, eq_self_iff_true, if_true] at he
            simp only [List.append_assoc, List.mem_append, List.mem_singleton,
              List.mem_cons, List.not_mem_nil, or_false] at he
            rcases he with h | rfl | rfl | rfl | rfl | rfl
            · exact Or.inl h
            · exact Or.inr ⟨rfl, Or.inl rfl⟩
            · exact Or.inr ⟨rfl, Or.inl rfl⟩
            · exact Or.inr ⟨rfl, Or.inl rfl⟩
            · exact Or.inr ⟨rfl, Or.inr rfl⟩
            · exact Or.inr ⟨rfl, Or.inl rfl⟩
      · refine ⟨?_, ?_, ?_, fun _ => hall, ?_, ?_⟩
        · simp only [deploy, log_audit_event, hcb, Bool.not_true, Bool.false_eq_true,
            if_false, hall, happ, eq_self_iff_true, if_true]
          rw [dcp_id]
        · simp only [deploy, log_audit_event, hcb, Bool.not_true, Bool.false_eq_true,
            if_false, hall, happ, eq_self_iff_true, if_true]
          rw [dcp_policies]
        · simp only [deploy, log_audit_event, hcb, Bool.not_true, Bool.false_eq_true,
            if_false, hall, happ, eq_self_iff_true, if_true]
          exact dcp_status4 _ _ _ _ _ _ _ _ _
        · intro h
          simp only [deploy, log_audit_event, hcb, Bool.not_true, Bool.false_eq_true,
            if_false, hall, happ, eq_self_iff_true, if_true] at h
          exact (dcp_ne_pending _ _ _ _ _ _ _ _ _ h).elim
        · intro e he
          simp only [deploy, log_audit_event, hcb, Bool.not_true, Bool.false_eq_true,
            if_false, hall, happ, eq_self_iff_true, if_true] at he
          rcases dcp_mem _ _ _ _ _ _ _ _ _ e he with h | h
          · simp only [List.append_assoc, List.mem_append, List.mem_singleton,
              List.mem_cons, List.not_mem_nil, or_false] at h
            rcases h with h | rfl | rfl | rfl | rfl
            · exact Or.inl h
            · exact Or.inr ⟨rfl, Or.inl rfl⟩
            · exact Or.inr ⟨rfl, Or.inl rfl⟩
            · exact Or.inr ⟨rfl, Or.inl rfl⟩
            · exact Or.inr ⟨rfl, Or.inr rfl⟩
          · exact Or.inr ⟨h.1, Or.inl h.2⟩
    · refine ⟨?_, ?_, ?_, ?_, ?_, ?_⟩
      · simp only [deploy, log_audit_event, hcb, Bool.not_true, Bool.not_false,
          Bool.false_eq_true, if_false, hall, eq_self_iff_true, if_true]
      · simp only [deploy, log_audit_event, hcb, Bool.not_true, Bool.not_false,
          Bool.false_eq_true, if_false, hall, eq_self_iff_true, if_true]
      · right; right; left
        simp only [deploy, log_audit_event, hcb, Bool.not_true, Bool.not_false,
          Bool.false_eq_true, if_false, hall, eq_self_iff_true, if_true]
      · intro h
        simp only [deploy, log_audit_event, hcb, Bool.not_true, Bool.not_false,
          Bool.false_eq_true, if_false, hall, eq_self_iff_true, if_true] at h
        exact absurd h (by decide)
      · intro h
        simp only [deploy, log_audit_event, hcb, Bool.not_true, Bool.not_false,
          Bool.false_eq_true, if_false, hall, eq_self_iff_true, if_true] at h
        exact absurd h (by decide)
      · intro e he
        simp only [deploy, log_audit_event, hcb, Bool.not_true, Bool.not_false,
          Bool.false_eq_true, if_false, hall, eq_self_iff_true, if_true] at he
        simp only [List.append_assoc, List.mem_append, List.mem_singleton,
          List.mem_cons, List.not_mem_nil, or_false] at he
        rcases he with h | rfl | rfl | rfl | rfl | rfl
        · exact Or.inl h
        · exact Or.inr ⟨rfl, Or.inl rfl⟩
        · exact Or.inr ⟨rfl, Or.inl rfl⟩
        · exact Or.inr ⟨rfl, Or.inl rfl⟩
        · exact Or.inr ⟨rfl, Or.inr rfl⟩
        · exact Or.inr ⟨rfl, Or.inl rfl⟩


/-! ## Claim theorems: C4, C5, C1 -/

theorem requires_human_of_score (rs : RiskScorer) (svc : Service)
    (ctx : DeploymentContext) (did : String)
    (h : HUMAN_REVIEW_THRESHOLD ≤ (calculate_risk_score rs svc ctx did).risk_score) :
    (calculate_risk_score rs svc ctx did).requires_human_review = true := by
  simp only [calculate_risk_score] at h ⊢
  exact decide_eq_true (Or.inl h)

/-- C4: the error-budget gate. `check_error_budget` returns not-allowed
exactly when the remaining budget is ≤ 0 (with a still-allowed advisory for
budgets strictly between 0 and 0.1), and a deploy of a budget-exhausted
service ends Failed with the ERROR_BUDGET_EXHAUSTED reason logged, an empty
canary-metrics history, and the deployment's audit events stopping at
`deployment_blocked` — before any governance policy evaluation or canary
work. -/
theorem C4_error_budget_gate (cfg : PipelineConfig) (g0 : GovernanceEngine)
    (cs : RolloutState) (svc : Service) (ctx0 : DeploymentContext)
    (version dep_id : String) (rag : RagContext) (clock : ℕ → String)
    (sample : MetricsOracle) (fs : Option ℕ) (dur : ℚ)
    (hb : svc.error_budget_remaining ≤ 0)
    (hfresh : ∀ e ∈ g0.audit_log, e.deployment_id ≠ dep_id) :
    (∀ s : Service, (check_error_budget s).1 = false ↔ s.error_budget_remaining ≤ 0) ∧
    (∀ s : Service, 0 < s.error_budget_remaining → s.error_budget_remaining < 0.1 →
      check_error_budget s = (true, "WARNING: Low error budget ("
        ++ fmtPercent 1 s.error_budget_remaining
        ++ "). Consider delaying non-critical changes.")) ∧
    check_error_budget svc = (false, "ERROR_BUDGET_EXHAUSTED: Service "
      ++ svc.name ++ " has no remaining error budget") ∧
    (deploy cfg g0 cs svc ctx0 version dep_id rag clock sample fs dur).2.2.status
      = .failed ∧
    (deploy cfg g0 cs svc ctx0 version dep_id rag clock sample fs
      dur).2.2.canary_metrics = [] ∧
    (deploymentEvents (deploy cfg g0 cs svc ctx0 version dep_id rag clock sample fs
        dur).1
      (deploy cfg g0 cs svc ctx0 version dep_id rag clock sample fs dur).2.2).map
        (fun e => (e.event_type, e.action)) =
      [("deployment_started", "initialize"), ("context_gathered", "rag_retrieval"),
       ("risk_assessed", "risk_scoring"),
       ("deployment_blocked", "error_budget_exhausted")] ∧
    ((deploymentEvents (deploy cfg g0 cs svc ctx0 version dep_id rag clock sample fs
        dur).1
      (deploy cfg g0 cs svc ctx0 version dep_id rag clock sample fs dur).2.2).map
        (fun e => e.details)).getLast? =
      some (jobj [("reason", Json.str ("ERROR_BUDGET_EXHAUSTED: Service "
        ++ svc.name ++ " has no remaining error budget"))]) := by
  have hcb : check_error_budget svc = (false, "ERROR_BUDGET_EXHAUSTED: Service "
      ++ svc.name ++ " has no remaining error budget") := by
    simp only [check_error_budget, if_pos hb]
  have h0 : g0.audit_log.filter (fun e => e.deployment_id == dep_id) = [] := by
    rw [List.filter_eq_nil_iff]
    intro e he
    simpa using hfresh e he
  refine ⟨?_, ?_, hcb, ?_, ?_, ?_, ?_⟩
  · intro s
    by_cases h1 : s.error_budget_remaining ≤ 0
    · simp [check_error_budget, h1]
    · by_cases h2 : s.error_budget_remaining < 0.1 <;>
        simp [check_error_budget, h1, h2]
  · intro s h1 h2
    simp only [check_error_budget, if_neg (not_le.mpr h1), if_pos h2]
  · simp only [deploy, log_audit_event, hcb, Bool.not_false, eq_self_iff_true, if_true]
  · simp only [deploy, log_audit_event, hcb, Bool.not_false, eq_self_iff_true, if_true]
  · simp only [deploy, log_audit_event, hcb, Bool.not_false, eq_self_iff_true, if_true,
      deploymentEvents, mkAuditEntry, List.filter_append, h0, List.filter_cons,
      List.filter_nil, beq_self_eq_true, List.nil_append, List.append_nil,
      List.map_cons, List.map_nil, List.map_append, List.append_assoc,
      List.singleton_append, List.cons_append]
  · simp only [deploy, log_audit_event, hcb, Bool.not_false, eq_self_iff_true, if_true,
      deploymentEvents, mkAuditEntry, List.filter_append, h0, List.filter_cons,
      List.filter_nil, beq_self_eq_true, List.nil_append, List.append_nil,
      List.map_cons, List.map_nil, List.map_append, List.append_assoc,
      List.singleton_append, List.cons_append, List.getLast?_cons_cons,
      List.getLast?_singleton]

/-- Witness for C4: a zero-budget service is blocked before governance and
canary work. -/
theorem C4_error_budget_witness :
    check_error_budget ⟨"svc-1", "payments", .medium, [], 0, 0.02, 0.998⟩ =
      (false, "ERROR_BUDGET_EXHAUSTED: Service "
        ++ (⟨"svc-1", "payments", .medium, [], 0, 0.02, 0.998⟩ : Service).name
        ++ " has no remaining error budget") ∧
    (deploy ⟨.governed, true⟩ ⟨DEFAULT_POLICIES, []⟩ RolloutState.init
      ⟨"svc-1", "payments", .medium, [], 0, 0.02, 0.998⟩
      ⟨100, 5, false, false, false, 10, 1, 0, 0, 0⟩ "1.0.0" "dep-001"
      ⟨3, 0.9, 0.9, 0, 10⟩ (fun _ => "t")
      (fun _ s _ => ⟨s.name, s.traffic_percentage, 300, 0.003, 50, 150, 0.997, 0⟩)
      none 1).2.2.status = .failed ∧
    (deploy ⟨.governed, true⟩ ⟨DEFAULT_POLICIES, []⟩ RolloutState.init
      ⟨"svc-1", "payments", .medium, [], 0, 0.02, 0.998⟩
      ⟨100, 5, false, false, false, 10, 1, 0, 0, 0⟩ "1.0.0" "dep-001"
      ⟨3, 0.9, 0.9, 0, 10⟩ (fun _ => "t")
      (fun _ s _ => ⟨s.name, s.traffic_percentage, 300, 0.003, 50, 150, 0.997, 0⟩)
      none 1).2.2.canary_metrics = [] := by
  have h := C4_error_budget_gate ⟨.governed, true⟩ ⟨DEFAULT_POLICIES, []⟩
    RolloutState.init ⟨"svc-1", "payments", .medium, [], 0, 0.02, 0.998⟩
    ⟨100, 5, false, false, false, 10, 1, 0, 0, 0⟩ "1.0.0" "dep-001"
    ⟨3, 0.9, 0.9, 0, 10⟩ (fun _ => "t")
    (fun _ s _ => ⟨s.name, s.traffic_percentage, 300, 0.003, 50, 150, 0.997, 0⟩)
    none 1 (by norm_num) (by simp)
  exact ⟨h.2.2.1, h.2.2.2.1, h.2.2.2.2.1⟩

/-- C5: every deploy returns a deployment in a terminal state (Completed,
RolledBack or Failed), except that a deployment whose policy evaluation
requires approval while auto-approval is disabled is returned still
Pending; and Scenario B: a Critical-tier service whose computed risk score
is ≥ 0.7 (with budget available and outside the Friday-evening block
window) gets requires_human_review = true, proceeds to the canary under
auto-approval (ending Completed or RolledBack), and remains Pending when
auto-approval is disabled. In this total embedding no internal fault can
occur, so the fault-to-Failed clause of the source (the except branch) is
vacuous. -/
theorem C5_terminal_states_and_scenarioB (cfg : PipelineConfig)
    (g0 : GovernanceEngine) (cs : RolloutState) (svc : Service)
    (ctx0 : DeploymentContext) (version dep_id : String) (rag : RagContext)
    (clock : ℕ → String) (sample : MetricsOracle) (fs : Option ℕ) (dur : ℚ)
    (hpol : g0.policies = DEFAULT_POLICIES) (htier : svc.tier = .critical)
    (hrs : HUMAN_REVIEW_THRESHOLD ≤ (calculate_risk_score
        (mkRiskScorer defaultRiskWeights cfg.autonomy_level) svc
        (applyGatherContext rag ctx0) dep_id).risk_score)
    (hfri : ¬ ((applyGatherContext rag ctx0).day_of_week = 4 ∧
        16 ≤ (applyGatherContext rag ctx0).time_of_day_hour))
    (hbud : 0 < svc.error_budget_remaining) :
    (∀ (cfg' : PipelineConfig) (g0' : GovernanceEngine) (cs' : RolloutState)
        (svc' : Service) (ctx0' : DeploymentContext) (v' id' : String)
        (rag' : RagContext) (clock' : ℕ → String) (sample' : MetricsOracle)
        (fs' : Option ℕ) (dur' : ℚ),
      (deploy cfg' g0' cs' svc' ctx0' v' id' rag' clock' sample' fs'
        dur').2.2.status = .completed ∨
      (deploy cfg' g0' cs' svc' ctx0' v' id' rag' clock' sample' fs'
        dur').2.2.status = .rolled_back ∨
      (deploy cfg' g0' cs' svc' ctx0' v' id' rag' clock' sample' fs'
        dur').2.2.status = .failed ∨
      ((deploy cfg' g0' cs' svc' ctx0' v' id' rag' clock' sample' fs'
        dur').2.2.status = .pending ∧ cfg'.simulate_human_approval = false)) ∧
    (calculate_risk_score (mkRiskScorer defaultRiskWeights cfg.autonomy_level) svc
      (applyGatherContext rag ctx0) dep_id).requires_human_review = true ∧
    (cfg.simulate_human_approval = true →
      (deploy cfg g0 cs svc ctx0 version dep_id rag clock sample fs
        dur).2.2.status = .completed ∨
      (deploy cfg g0 cs svc ctx0 version dep_id rag clock sample fs
        dur).2.2.status = .rolled_back) ∧
    (cfg.simulate_human_approval = false →
      (deploy cfg g0 cs svc ctx0 version dep_id rag clock sample fs
        dur).2.2.status = .pending) := by
  have hs05 : (0.5 : ℚ) < (calculate_risk_score
      (mkRiskScorer defaultRiskWeights cfg.autonomy_level) svc
      (applyGatherContext rag ctx0) dep_id).risk_score :=
    lt_of_lt_of_le (by norm_num [HUMAN_REVIEW_THRESHOLD]) hrs
  have hB := evalDefault_scenarioB svc (applyGatherContext rag ctx0)
    ((calculate_risk_score (mkRiskScorer defaultRiskWeights cfg.autonomy_level) svc
      (applyGatherContext rag ctx0) dep_id).risk_score) htier hs05 hfri hbud
  have hall : (evaluate_policies g0.policies svc (applyGatherContext rag ctx0)
      ((calculate_risk_score (mkRiskScorer defaultRiskWeights cfg.autonomy_level) svc
        (applyGatherContext rag ctx0) dep_id).risk_score)).allowed = true := by
    rw [hpol]
    exact hB.1
  have happ : (evaluate_policies g0.policies svc (applyGatherContext rag ctx0)
      ((calculate_risk_score (mkRiskScorer defaultRiskWeights cfg.autonomy_level) svc
        (applyGatherContext rag ctx0) dep_id).risk_score)).requires_approval
      = true := by
    rw [hpol]
    exact hB.2
  have hble : ¬ svc.error_budget_remaining ≤ 0 := not_le.mpr hbud
  have hok : (check_error_budget svc).1 = true := by
    simp only [check_error_budget, if_neg hble]
    split_ifs <;> rfl
  rcases hcb : check_error_budget svc with ⟨ok, reason⟩
  cases ok with
  | false =>
    rw [hcb] at hok
    simp at hok
  | true =>
    refine ⟨?_, requires_human_of_score _ _ _ _ hrs, ?_, ?_⟩
    · intro cfg' g0' cs' svc' ctx0' v' id' rag' clock' sample' fs' dur'
      obtain ⟨-, -, hstat4, -, hpend, -⟩ :=
        deploy_spec cfg' g0' cs' svc' ctx0' v' id' rag' clock' sample' fs' dur'
      rcases hstat4 with h | h | h | h
      · exact Or.inl h
      · exact Or.inr (Or.inl h)
      · exact Or.inr (Or.inr (Or.inl h))
      · exact Or.inr (Or.inr (Or.inr ⟨h, (hpend h).1⟩))
    · intro hsim
      simp only [deploy, log_audit_event, hcb, Bool.not_true, Bool.false_eq_true,
        if_false, hall, happ, hsim, eq_self_iff_true, if_true]
      exact Or.symm (deployCanaryPhase_spec _ _ _ _ _ _ _ _ _).2.2.1
    · intro hsim
      simp only [deploy, log_audit_event, hcb, Bool.not_true, Bool.false_eq_true,
        if_false, hall, happ, hsim, eq_self_iff_true, if_true]

/-- Witness for C5's Scenario B: a Critical-tier service with a high-risk
context (score 0.8745 ≥ 0.7) under auto-approval. -/
theorem C5_scenario_witness :
    (calculate_risk_score (mkRiskScorer defaultRiskWeights
        (⟨.governed, true⟩ : PipelineConfig).autonomy_level)
      ⟨"svc-1", "payments", .critical, [], 0.01, 1, 0⟩
      (applyGatherContext ⟨3, 0.5, 0.9, 10, 0⟩
        ⟨1500, 60, true, true, true, 23, 5, 0, 0, 0⟩)
      "dep-001").requires_human_review = true ∧
    ((deploy ⟨.governed, true⟩ ⟨DEFAULT_POLICIES, []⟩ RolloutState.init
        ⟨"svc-1", "payments", .critical, [], 0.01, 1, 0⟩
        ⟨1500, 60, true, true, true, 23, 5, 0, 0, 0⟩ "1.0.0" "dep-001"
        ⟨3, 0.5, 0.9, 10, 0⟩ (fun _ => "t")
        (fun _ s _ => ⟨s.name, s.traffic_percentage, 300, 0.003, 50, 150, 0.997, 0⟩)
        none 1).2.2.status = .completed ∨
     (deploy ⟨.governed, true⟩ ⟨DEFAULT_POLICIES, []⟩ RolloutState.init
        ⟨"svc-1", "payments", .critical, [], 0.01, 1, 0⟩
        ⟨1500, 60, true, true, true, 23, 5, 0, 0, 0⟩ "1.0.0" "dep-001"
        ⟨3, 0.5, 0.9, 10, 0⟩ (fun _ => "t")
        (fun _ s _ => ⟨s.name, s.traffic_percentage, 300, 0.003, 50, 150, 0.997, 0⟩)
        none 1).2.2.status = .rolled_back) := by
  have h := C5_terminal_states_and_scenarioB ⟨.governed, true⟩
    ⟨DEFAULT_POLICIES, []⟩ RolloutState.init
    ⟨"svc-1", "payments", .critical, [], 0.01, 1, 0⟩
    ⟨1500, 60, true, true, true, 23, 5, 0, 0, 0⟩ "1.0.0" "dep-001"
    ⟨3, 0.5, 0.9, 10, 0⟩ (fun _ => "t")
    (fun _ s _ => ⟨s.name, s.traffic_percentage, 300, 0.003, 50, 150, 0.997, 0⟩)
    none 1 rfl rfl
    (by norm_num [calculate_risk_score, calculate_tier_risk, calculate_health_risk,
      Service.health_score, calculate_historical_risk, calculate_blast_radius,
      calculate_complexity_risk, calculate_timing_risk, mkRiskScorer,
      RiskWeights.total, defaultRiskWeights, applyGatherContext,
      HUMAN_REVIEW_THRESHOLD, min_def])
    (by decide) (by norm_num)
  exact ⟨h.2.1, h.2.2.1 rfl⟩

/-- C1: the safety-violation invariant. `check_safety_violation` returns
true exactly when some audit entry for the deployment lists a violated
policy whose action is "block" while the deployment's status is Completed;
and on every deployment produced by the normal deploy path (default
policies, fresh deployment id) it returns false, because a block-action
violation forces allowed = false and status Failed before the canary
phase. -/
theorem C1_safety_violation_invariant (cfg : PipelineConfig)
    (g0 : GovernanceEngine) (cs : RolloutState) (svc : Service)
    (ctx0 : DeploymentContext) (version dep_id : String) (rag : RagContext)
    (clock : ℕ → String) (sample : MetricsOracle) (fs : Option ℕ) (dur : ℚ)
    (a : String) (c : Json)
    (hpol : g0.policies = DEFAULT_POLICIES)
    (hfresh : ∀ e ∈ g0.audit_log, e.deployment_id ≠ dep_id) :
    check_safety_violation
      (deploy cfg g0 cs svc ctx0 version dep_id rag clock sample fs dur).1
      (deploy cfg g0 cs svc ctx0 version dep_id rag clock sample fs dur).2.2 a c
      = false ∧
    (∀ (g : GovernanceEngine) (d : Deployment),
      check_safety_violation g d a c = true ↔
        ∃ e ∈ g.audit_log, e.deployment_id = d.id ∧
          ∃ name ∈ e.policies_violated,
            ∃ p, g.policies.find? (fun q => q.name == name) = some p ∧
              p.action = "block" ∧ d.status = .completed) := by
  obtain ⟨hid, hpols, -, hcomp, -, hmem⟩ :=
    deploy_spec cfg g0 cs svc ctx0 version dep_id rag clock sample fs dur
  refine ⟨?_, fun g d => check_safety_violation_iff g d a c⟩
  by_cases hst : (deploy cfg g0 cs svc ctx0 version dep_id rag clock sample fs
      dur).2.2.status = DeploymentStatus.completed
  · rw [← Bool.not_eq_true, check_safety_violation_iff]
    rintro ⟨e, he, hdid, name, hname, p, hfind, hact, -⟩
    rcases hmem e he with h | ⟨hd, hpv⟩
    · exact hfresh e h (hdid.trans hid)
    · rcases hpv with hpv | hpv
      · rw [hpv] at hname
        exact (List.not_mem_nil name) hname
      · rw [hpv] at hname
        have hallow := hcomp hst
        rw [hpols, hpol] at hfind
        rw [hpol] at hallow hname
        exact evalDefault_violated_no_block svc (applyGatherContext rag ctx0) _
          hallow name hname p hfind hact
  · exact check_safety_violation_of_ne_completed _ _ a c hst

/-- Witness for C1: the safety check is false on a concrete deploy from a
fresh engine with the default policies. -/
theorem C1_safety_witness :
    check_safety_violation
      (deploy ⟨.governed, true⟩ ⟨DEFAULT_POLICIES, []⟩ RolloutState.init
        ⟨"svc-1", "payments", .medium, [], 0.8, 0.02, 0.998⟩
        ⟨100, 5, false, false, false, 10, 1, 0, 0, 0⟩ "1.0.0" "dep-001"
        ⟨3, 0.9, 0.9, 0, 10⟩ (fun _ => "t")
        (fun _ s _ => ⟨s.name, s.traffic_percentage, 300, 0.003, 50, 150, 0.997, 0⟩)
        none 1).1
      (deploy ⟨.governed, true⟩ ⟨DEFAULT_POLICIES, []⟩ RolloutState.init
        ⟨"svc-1", "payments", .medium, [], 0.8, 0.02, 0.998⟩
        ⟨100, 5, false, false, false, 10, 1, 0, 0, 0⟩ "1.0.0" "dep-001"
        ⟨3, 0.9, 0.9, 0, 10⟩ (fun _ => "t")
        (fun _ s _ => ⟨s.name, s.traffic_percentage, 300, 0.003, 50, 150, 0.997, 0⟩)
        none 1).2.2 "deploy" (jobj []) = false :=
  (C1_safety_violation_invariant ⟨.governed, true⟩ ⟨DEFAULT_POLICIES, []⟩
    RolloutState.init ⟨"svc-1", "payments", .medium, [], 0.8, 0.02, 0.998⟩
    ⟨100, 5, false, false, false, 10, 1, 0, 0, 0⟩ "1.0.0" "dep-001"
    ⟨3, 0.9, 0.9, 0, 10⟩ (fun _ => "t")
    (fun _ s _ => ⟨s.name, s.traffic_percentage, 300, 0.003, 50, 150, 0.997, 0⟩)
    none 1 "deploy" (jobj []) rfl (by simp)).1


end GenOps
